import Mathlib

/-!
Verification development for the visualization-generation pipeline of the
teaching-aid backend: a shallow embedding of the job manager, the modality
dispatcher, the SVG / Three.js / Manim generators, and the status-poll route,
together with theorems settling the specification's claims about them.

Embedding conventions:
* `datetime.now()` timestamps are passed in as explicit `Nat` clock arguments;
* external effects (the Manim subprocess, the pre-existing files in the static
  videos directory, the `GOOGLE_API_KEY` environment variable) are passed in as
  explicit environment values;
* Python exceptions are `Except String` results, propagated exactly where the
  source propagates them;
* the literal Manim scene-code bodies are presentation data; the embedding
  records which template is selected (they carry no logic the claims touch).
-/

set_option autoImplicit false
set_option linter.unusedVariables false
set_option linter.unnecessarySeqFocus false

namespace TeachingAid

/-- Status enum of a visualization job (`JobStatus` in `job_manager.py`, a `str` enum). -/
inductive JobStatus where
  | pending
  | running
  | done
  | error
deriving DecidableEq, Repr

/-- The string value of each `JobStatus` member. -/
def JobStatus.toStr : JobStatus → String
  | .pending => "pending"
  | .running => "running"
  | .done => "done"
  | .error => "error"

/-- Visualization modality (the `VizType` literal type in `generator.py`). -/
inductive VizType where
  | three_spec
  | manim_mp4
  | image
deriving DecidableEq, Repr

/-- The literal string of each `VizType`. -/
def VizType.toStr : VizType → String
  | .three_spec => "three_spec"
  | .manim_mp4 => "manim_mp4"
  | .image => "image"

/-- Python's `str.lower` on a string (kernel-computable form of ASCII case
folding, as `str.lower` behaves on the ASCII topic keys the source uses). -/
def pyLower (s : String) : String :=
  String.mk (s.data.map Char.toLower)

/-- Python's `str.replace` for a single-character pattern and replacement (the
only form the source uses: `" " -> "_"` and `"-" -> "_"`). -/
def pyReplace1 (s : String) (a b : Char) : String :=
  String.mk (s.data.map fun c => if c = a then b else c)

/-- Python's `s[:n]` prefix slice on a string. -/
def pyTake (s : String) (n : Nat) : String :=
  String.mk (s.data.take n)

/-- JSON-like values: the payloads stored in the Three.js scene specs are plain
Python data (strings, numbers, booleans, lists, dicts). Numbers are modelled as
rationals (the payload numerals are only carried, never computed on). -/
inductive JValue where
  | str (s : String)
  | num (q : ℚ)
  | bool (b : Bool)
  | arr (xs : List JValue)
  | obj (fields : List (String × JValue))

/-- The closed enumeration of Three.js scene types (`SceneType` in `three_templates.py`, a `str` enum). -/
inductive SceneType where
  | DERIVATIVE_GRAPH
  | INTEGRAL_AREA
  | LIMIT_APPROACH
  | CHAIN_RULE_COMPOSITION
  | PRODUCT_RULE_SPLIT
  | COORDINATE_SYSTEM
  | NEURAL_NETWORK_DIAGRAM
  | ACTIVATION_FUNCTION_GRAPH
  | GRADIENT_DESCENT_SURFACE
  | VECTOR_VISUALIZATION
  | MATRIX_TRANSFORMATION
  | EIGENSPACE_VISUALIZATION
  | PROJECTILE_MOTION
  | FORCE_DIAGRAM
  | WAVE_VISUALIZATION
  | PENDULUM_MOTION
  | DISTRIBUTION_CURVE
  | SCATTER_PLOT
  | PROBABILITY_TREE
  | GRAPH_VISUALIZATION
  | TREE_VISUALIZATION
  | SET_DIAGRAM
deriving DecidableEq, Repr

/-- The string value of each `SceneType` member. -/
def SceneType.value : SceneType → String
  | .DERIVATIVE_GRAPH => "derivative_graph"
  | .INTEGRAL_AREA => "integral_area"
  | .LIMIT_APPROACH => "limit_approach"
  | .CHAIN_RULE_COMPOSITION => "chain_rule_composition"
  | .PRODUCT_RULE_SPLIT => "product_rule_split"
  | .COORDINATE_SYSTEM => "coordinate_system"
  | .NEURAL_NETWORK_DIAGRAM => "neural_network_diagram"
  | .ACTIVATION_FUNCTION_GRAPH => "activation_function_graph"
  | .GRADIENT_DESCENT_SURFACE => "gradient_descent_surface"
  | .VECTOR_VISUALIZATION => "vector_visualization"
  | .MATRIX_TRANSFORMATION => "matrix_transformation"
  | .EIGENSPACE_VISUALIZATION => "eigenspace_visualization"
  | .PROJECTILE_MOTION => "projectile_motion"
  | .FORCE_DIAGRAM => "force_diagram"
  | .WAVE_VISUALIZATION => "wave_visualization"
  | .PENDULUM_MOTION => "pendulum_motion"
  | .DISTRIBUTION_CURVE => "distribution_curve"
  | .SCATTER_PLOT => "scatter_plot"
  | .PROBABILITY_TREE => "probability_tree"
  | .GRAPH_VISUALIZATION => "graph_visualization"
  | .TREE_VISUALIZATION => "tree_visualization"
  | .SET_DIAGRAM => "set_diagram"

/-- All members of the `SceneType` enumeration, in declaration order. -/
def allSceneTypes : List SceneType :=
  [SceneType.DERIVATIVE_GRAPH, SceneType.INTEGRAL_AREA, SceneType.LIMIT_APPROACH, SceneType.CHAIN_RULE_COMPOSITION, SceneType.PRODUCT_RULE_SPLIT, SceneType.COORDINATE_SYSTEM, SceneType.NEURAL_NETWORK_DIAGRAM, SceneType.ACTIVATION_FUNCTION_GRAPH, SceneType.GRADIENT_DESCENT_SURFACE, SceneType.VECTOR_VISUALIZATION, SceneType.MATRIX_TRANSFORMATION, SceneType.EIGENSPACE_VISUALIZATION, SceneType.PROJECTILE_MOTION, SceneType.FORCE_DIAGRAM, SceneType.WAVE_VISUALIZATION, SceneType.PENDULUM_MOTION, SceneType.DISTRIBUTION_CURVE, SceneType.SCATTER_PLOT, SceneType.PROBABILITY_TREE, SceneType.GRAPH_VISUALIZATION, SceneType.TREE_VISUALIZATION, SceneType.SET_DIAGRAM]

/-- A produced Three.js scene spec: the dict
`{"sceneType": <SceneType member>, "params": <payload>}` built by every
`get_*_spec` function in `three_templates.py`. -/
structure ThreeSpec where
  sceneType : SceneType
  params : JValue

/-- A candidate spec as seen by `validate_three_spec`: a dict that may or may
not carry the `"sceneType"` and `"params"` keys (with values of any type). -/
structure SpecDict where
  sceneType? : Option JValue
  params? : Option JValue

/-- The dict representation of a produced spec (a `SceneType` member is a `str`
subclass equal to its `.value`). -/
def ThreeSpec.toDict (s : ThreeSpec) : SpecDict :=
  { sceneType? := some (JValue.str s.sceneType.value), params? := some s.params }

/-- `[s.value for s in SceneType]` in `validate_three_spec`. -/
def sceneTypeValues : List String :=
  allSceneTypes.map SceneType.value

/-- Translation of `get_derivative_graph_spec` from `three_templates.py`. -/
def get_derivative_graph_spec (topic : String) : ThreeSpec :=
  let specs : List (String × JValue) := [
    ("derivatives", JValue.obj [("fn", JValue.str "x^2"), ("point", JValue.num 1), ("range", JValue.arr [JValue.num (-3), JValue.num 3]), ("fnLabel", JValue.str "f(x) = x²"), ("derivativeLabel", JValue.str "f\x27(x) = 2x")]),
    ("power_rule", JValue.obj [("fn", JValue.str "x^3"), ("point", JValue.num (3 / 2)), ("range", JValue.arr [JValue.num (-2), JValue.num 2]), ("fnLabel", JValue.str "f(x) = x³"), ("derivativeLabel", JValue.str "f\x27(x) = 3x²")]),
    ("chain_rule", JValue.obj [("fn", JValue.str "sin(2*x)"), ("point", JValue.num (1 / 2)), ("range", JValue.arr [JValue.num ((-157) / 50), JValue.num (157 / 50)]), ("fnLabel", JValue.str "f(x) = sin(2x)"), ("derivativeLabel", JValue.str "f\x27(x) = 2cos(2x)")])
  ]
  { sceneType := SceneType.DERIVATIVE_GRAPH,
    params := (List.lookup topic specs).getD (JValue.obj [("fn", JValue.str "x^2"), ("point", JValue.num 1), ("range", JValue.arr [JValue.num (-3), JValue.num 3]), ("fnLabel", JValue.str "f(x) = x²"), ("derivativeLabel", JValue.str "f\x27(x) = 2x")]) }

/-- Translation of `get_integral_area_spec` from `three_templates.py`. -/
def get_integral_area_spec (topic : String) : ThreeSpec :=
  let specs : List (String × JValue) := [
    ("integrals", JValue.obj [("fn", JValue.str "x^2"), ("a", JValue.num 0), ("b", JValue.num 2), ("range", JValue.arr [JValue.num (-1), JValue.num 3]), ("fnLabel", JValue.str "f(x) = x²"), ("areaLabel", JValue.str "∫₀² x² dx = 8/3")]),
    ("definite_integrals", JValue.obj [("fn", JValue.str "sin(x)"), ("a", JValue.num 0), ("b", JValue.num (314159 / 100000)), ("range", JValue.arr [JValue.num ((-1) / 2), JValue.num (7 / 2)]), ("fnLabel", JValue.str "f(x) = sin(x)"), ("areaLabel", JValue.str "∫₀^π sin(x) dx = 2")]),
    ("integration_by_parts", JValue.obj [("fn", JValue.str "x*exp(-x)"), ("a", JValue.num 0), ("b", JValue.num 2), ("range", JValue.arr [JValue.num ((-1) / 2), JValue.num 3]), ("fnLabel", JValue.str "f(x) = xe^(-x)"), ("areaLabel", JValue.str "∫ xe^(-x) dx")])
  ]
  { sceneType := SceneType.INTEGRAL_AREA,
    params := (List.lookup topic specs).getD (JValue.obj [("fn", JValue.str "x^2"), ("a", JValue.num 0), ("b", JValue.num 2), ("range", JValue.arr [JValue.num (-1), JValue.num 3]), ("fnLabel", JValue.str "f(x) = x²"), ("areaLabel", JValue.str "∫₀² x² dx = 8/3")]) }

/-- Translation of `get_limit_approach_spec` from `three_templates.py`. -/
def get_limit_approach_spec (topic : String) : ThreeSpec :=
  let specs : List (String × JValue) := [
    ("limits", JValue.obj [("fn", JValue.str "(x^2-1)/(x-1)"), ("limitPoint", JValue.num 1), ("limitValue", JValue.num 2), ("direction", JValue.str "both"), ("range", JValue.arr [JValue.num (-1), JValue.num 3]), ("fnLabel", JValue.str "f(x) = (x²-1)/(x-1)"), ("limitLabel", JValue.str "lim[x→1] = 2")]),
    ("continuity", JValue.obj [("fn", JValue.str "abs(x)"), ("limitPoint", JValue.num 0), ("limitValue", JValue.num 0), ("direction", JValue.str "both"), ("range", JValue.arr [JValue.num (-2), JValue.num 2]), ("fnLabel", JValue.str "f(x) = |x|"), ("limitLabel", JValue.str "Continuous at x=0")])
  ]
  { sceneType := SceneType.LIMIT_APPROACH,
    params := (List.lookup topic specs).getD (JValue.obj [("fn", JValue.str "(x^2-1)/(x-1)"), ("limitPoint", JValue.num 1), ("limitValue", JValue.num 2), ("direction", JValue.str "both"), ("range", JValue.arr [JValue.num (-1), JValue.num 3]), ("fnLabel", JValue.str "f(x) = (x²-1)/(x-1)"), ("limitLabel", JValue.str "lim[x→1] = 2")]) }

/-- Translation of `get_chain_rule_composition_spec` from `three_templates.py`. -/
def get_chain_rule_composition_spec (topic : String) : ThreeSpec :=
  let _ := topic
  { sceneType := SceneType.CHAIN_RULE_COMPOSITION,
    params := JValue.obj [("outer", JValue.str "x^2"), ("inner", JValue.str "sin(x)"), ("composed", JValue.str "(sin(x))^2"), ("range", JValue.arr [JValue.num ((-157) / 50), JValue.num (157 / 50)]), ("outerLabel", JValue.str "g(u) = u²"), ("innerLabel", JValue.str "f(x) = sin(x)"), ("composedLabel", JValue.str "h(x) = sin²(x)")] }

/-- Translation of `get_product_rule_split_spec` from `three_templates.py`. -/
def get_product_rule_split_spec (topic : String) : ThreeSpec :=
  let _ := topic
  { sceneType := SceneType.PRODUCT_RULE_SPLIT,
    params := JValue.obj [("fn1", JValue.str "x"), ("fn2", JValue.str "sin(x)"), ("product", JValue.str "x*sin(x)"), ("range", JValue.arr [JValue.num ((-157) / 50), JValue.num (157 / 50)]), ("fn1Label", JValue.str "f(x) = x"), ("fn2Label", JValue.str "g(x) = sin(x)"), ("productLabel", JValue.str "h(x) = x·sin(x)")] }

/-- Translation of `get_coordinate_system_spec` from `three_templates.py`. -/
def get_coordinate_system_spec (topic : String) : ThreeSpec :=
  let _ := topic
  { sceneType := SceneType.COORDINATE_SYSTEM,
    params := JValue.obj [("points", JValue.arr [JValue.obj [("x", JValue.num 0), ("y", JValue.num 0), ("z", JValue.num 0), ("label", JValue.str "Origin")], JValue.obj [("x", JValue.num 1), ("y", JValue.num 0), ("z", JValue.num 0), ("label", JValue.str "x")], JValue.obj [("x", JValue.num 0), ("y", JValue.num 1), ("z", JValue.num 0), ("label", JValue.str "y")], JValue.obj [("x", JValue.num 0), ("y", JValue.num 0), ("z", JValue.num 1), ("label", JValue.str "z")]]), ("showGrid", JValue.bool true), ("range", JValue.arr [JValue.num (-2), JValue.num 2])] }

/-- Translation of `get_neural_network_diagram_spec` from `three_templates.py`. -/
def get_neural_network_diagram_spec (topic : String) : ThreeSpec :=
  let specs : List (String × JValue) := [
    ("neural_networks", JValue.obj [("layers", JValue.arr [JValue.num 4, JValue.num 6, JValue.num 6, JValue.num 3]), ("layerLabels", JValue.arr [JValue.str "Input", JValue.str "Hidden 1", JValue.str "Hidden 2", JValue.str "Output"]), ("activations", JValue.arr [JValue.str "none", JValue.str "relu", JValue.str "relu", JValue.str "softmax"]), ("fnLabel", JValue.str "Neural Network Architecture"), ("description", JValue.str "Multi-layer perceptron")]),
    ("perceptron", JValue.obj [("layers", JValue.arr [JValue.num 3, JValue.num 1]), ("layerLabels", JValue.arr [JValue.str "Input", JValue.str "Output"]), ("activations", JValue.arr [JValue.str "none", JValue.str "sigmoid"]), ("fnLabel", JValue.str "Single Perceptron"), ("description", JValue.str "Weighted sum → Activation")]),
    ("convolutional_networks", JValue.obj [("layers", JValue.arr [JValue.num 8, JValue.num 4, JValue.num 4, JValue.num 2]), ("layerLabels", JValue.arr [JValue.str "Conv", JValue.str "Pool", JValue.str "FC", JValue.str "Output"]), ("activations", JValue.arr [JValue.str "relu", JValue.str "none", JValue.str "relu", JValue.str "softmax"]), ("fnLabel", JValue.str "CNN Architecture"), ("description", JValue.str "Convolution → Pooling → Dense")])
  ]
  { sceneType := SceneType.NEURAL_NETWORK_DIAGRAM,
    params := (List.lookup topic specs).getD (JValue.obj [("layers", JValue.arr [JValue.num 4, JValue.num 6, JValue.num 6, JValue.num 3]), ("layerLabels", JValue.arr [JValue.str "Input", JValue.str "Hidden 1", JValue.str "Hidden 2", JValue.str "Output"]), ("activations", JValue.arr [JValue.str "none", JValue.str "relu", JValue.str "relu", JValue.str "softmax"]), ("fnLabel", JValue.str "Neural Network Architecture"), ("description", JValue.str "Multi-layer perceptron")]) }

/-- Translation of `get_activation_function_spec` from `three_templates.py`. -/
def get_activation_function_spec (topic : String) : ThreeSpec :=
  let specs : List (String × JValue) := [
    ("relu", JValue.obj [("fn", JValue.str "max(0, x)"), ("derivativeFn", JValue.str "x > 0 ? 1 : 0"), ("range", JValue.arr [JValue.num (-3), JValue.num 3]), ("fnLabel", JValue.str "ReLU: f(x) = max(0, x)"), ("derivativeLabel", JValue.str "f\x27(x) = \x7b1 if x > 0, 0 otherwise\x7d")]),
    ("sigmoid", JValue.obj [("fn", JValue.str "1/(1+exp(-x))"), ("derivativeFn", JValue.str "sigmoid(x) * (1 - sigmoid(x))"), ("range", JValue.arr [JValue.num (-5), JValue.num 5]), ("fnLabel", JValue.str "Sigmoid: σ(x) = 1/(1+e⁻ˣ)"), ("derivativeLabel", JValue.str "σ\x27(x) = σ(x)(1-σ(x))")]),
    ("activation_functions", JValue.obj [("fn", JValue.str "tanh(x)"), ("derivativeFn", JValue.str "1 - tanh(x)^2"), ("range", JValue.arr [JValue.num (-3), JValue.num 3]), ("fnLabel", JValue.str "Tanh: f(x) = tanh(x)"), ("derivativeLabel", JValue.str "f\x27(x) = 1 - tanh²(x)")])
  ]
  { sceneType := SceneType.ACTIVATION_FUNCTION_GRAPH,
    params := (List.lookup topic specs).getD (JValue.obj [("fn", JValue.str "max(0, x)"), ("derivativeFn", JValue.str "x > 0 ? 1 : 0"), ("range", JValue.arr [JValue.num (-3), JValue.num 3]), ("fnLabel", JValue.str "ReLU: f(x) = max(0, x)"), ("derivativeLabel", JValue.str "f\x27(x) = \x7b1 if x > 0, 0 otherwise\x7d")]) }

/-- Translation of `get_gradient_descent_spec` from `three_templates.py`. -/
def get_gradient_descent_spec (topic : String) : ThreeSpec :=
  let specs : List (String × JValue) := [
    ("gradient_descent", JValue.obj [("surfaceFn", JValue.str "x^2 + y^2"), ("startPoint", JValue.obj [("x", JValue.num 2), ("y", JValue.num 2)]), ("learningRate", JValue.num (1 / 10)), ("steps", JValue.num 10), ("range", JValue.arr [JValue.num (-3), JValue.num 3]), ("fnLabel", JValue.str "Loss Surface: L(w₁, w₂) = w₁² + w₂²"), ("description", JValue.str "Gradient descent path to minimum")]),
    ("backpropagation", JValue.obj [("surfaceFn", JValue.str "sin(x)*cos(y) + x^2/10 + y^2/10"), ("startPoint", JValue.obj [("x", JValue.num (3 / 2)), ("y", JValue.num (3 / 2))]), ("learningRate", JValue.num (3 / 20)), ("steps", JValue.num 15), ("range", JValue.arr [JValue.num (-3), JValue.num 3]), ("fnLabel", JValue.str "Non-convex Loss Surface"), ("description", JValue.str "Navigating local minima")]),
    ("loss_functions", JValue.obj [("surfaceFn", JValue.str "x^2 + 2*y^2"), ("startPoint", JValue.obj [("x", JValue.num 2), ("y", JValue.num 1)]), ("learningRate", JValue.num (1 / 10)), ("steps", JValue.num 12), ("range", JValue.arr [JValue.num (-3), JValue.num 3]), ("fnLabel", JValue.str "MSE Loss Surface"), ("description", JValue.str "Mean Squared Error minimization")])
  ]
  { sceneType := SceneType.GRADIENT_DESCENT_SURFACE,
    params := (List.lookup topic specs).getD (JValue.obj [("surfaceFn", JValue.str "x^2 + y^2"), ("startPoint", JValue.obj [("x", JValue.num 2), ("y", JValue.num 2)]), ("learningRate", JValue.num (1 / 10)), ("steps", JValue.num 10), ("range", JValue.arr [JValue.num (-3), JValue.num 3]), ("fnLabel", JValue.str "Loss Surface: L(w₁, w₂) = w₁² + w₂²"), ("description", JValue.str "Gradient descent path to minimum")]) }

/-- Translation of `get_vector_visualization_spec` from `three_templates.py`. -/
def get_vector_visualization_spec (topic : String) : ThreeSpec :=
  let specs : List (String × JValue) := [
    ("vectors", JValue.obj [("vectors", JValue.arr [JValue.obj [("x", JValue.num 2), ("y", JValue.num 1), ("z", JValue.num 0), ("color", JValue.str "#3b82f6"), ("label", JValue.str "a")], JValue.obj [("x", JValue.num 1), ("y", JValue.num 2), ("z", JValue.num 0), ("color", JValue.str "#10b981"), ("label", JValue.str "b")], JValue.obj [("x", JValue.num 3), ("y", JValue.num 3), ("z", JValue.num 0), ("color", JValue.str "#fbbf24"), ("label", JValue.str "a + b")]]), ("showSum", JValue.bool true), ("fnLabel", JValue.str "Vector Addition"), ("description", JValue.str "a + b = (a₁+b₁, a₂+b₂)")]),
    ("dot_product", JValue.obj [("vectors", JValue.arr [JValue.obj [("x", JValue.num 3), ("y", JValue.num 0), ("z", JValue.num 0), ("color", JValue.str "#3b82f6"), ("label", JValue.str "a")], JValue.obj [("x", JValue.num 2), ("y", JValue.num 2), ("z", JValue.num 0), ("color", JValue.str "#10b981"), ("label", JValue.str "b")]]), ("showProjection", JValue.bool true), ("dotProduct", JValue.num 6), ("fnLabel", JValue.str "Dot Product"), ("description", JValue.str "a · b = |a||b|cos(θ) = 6")]),
    ("cross_product", JValue.obj [("vectors", JValue.arr [JValue.obj [("x", JValue.num 1), ("y", JValue.num 0), ("z", JValue.num 0), ("color", JValue.str "#3b82f6"), ("label", JValue.str "a")], JValue.obj [("x", JValue.num 0), ("y", JValue.num 1), ("z", JValue.num 0), ("color", JValue.str "#10b981"), ("label", JValue.str "b")], JValue.obj [("x", JValue.num 0), ("y", JValue.num 0), ("z", JValue.num 1), ("color", JValue.str "#ef4444"), ("label", JValue.str "a × b")]]), ("showPlane", JValue.bool true), ("fnLabel", JValue.str "Cross Product"), ("description", JValue.str "a × b is perpendicular to both")])
  ]
  { sceneType := SceneType.VECTOR_VISUALIZATION,
    params := (List.lookup topic specs).getD (JValue.obj [("vectors", JValue.arr [JValue.obj [("x", JValue.num 2), ("y", JValue.num 1), ("z", JValue.num 0), ("color", JValue.str "#3b82f6"), ("label", JValue.str "a")], JValue.obj [("x", JValue.num 1), ("y", JValue.num 2), ("z", JValue.num 0), ("color", JValue.str "#10b981"), ("label", JValue.str "b")], JValue.obj [("x", JValue.num 3), ("y", JValue.num 3), ("z", JValue.num 0), ("color", JValue.str "#fbbf24"), ("label", JValue.str "a + b")]]), ("showSum", JValue.bool true), ("fnLabel", JValue.str "Vector Addition"), ("description", JValue.str "a + b = (a₁+b₁, a₂+b₂)")]) }

/-- Translation of `get_matrix_transformation_spec` from `three_templates.py`. -/
def get_matrix_transformation_spec (topic : String) : ThreeSpec :=
  let specs : List (String × JValue) := [
    ("linear_transformations", JValue.obj [("matrix", JValue.arr [JValue.arr [JValue.num 2, JValue.num 0], JValue.arr [JValue.num 0, JValue.num 2]]), ("matrixLabel", JValue.str "Scaling: 2I"), ("fnLabel", JValue.str "Linear Transformation"), ("description", JValue.str "Grid scales by factor of 2")]),
    ("matrices", JValue.obj [("matrix", JValue.arr [JValue.arr [JValue.num 1, JValue.num (1 / 2)], JValue.arr [JValue.num 0, JValue.num 1]]), ("matrixLabel", JValue.str "Shear Matrix"), ("fnLabel", JValue.str "Matrix Transformation"), ("description", JValue.str "Horizontal shear transformation")]),
    ("matrix_multiplication", JValue.obj [("matrix", JValue.arr [JValue.arr [JValue.num 0, JValue.num (-1)], JValue.arr [JValue.num 1, JValue.num 0]]), ("matrixLabel", JValue.str "90° Rotation"), ("fnLabel", JValue.str "Rotation Matrix"), ("description", JValue.str "Counter-clockwise rotation")])
  ]
  { sceneType := SceneType.MATRIX_TRANSFORMATION,
    params := (List.lookup topic specs).getD (JValue.obj [("matrix", JValue.arr [JValue.arr [JValue.num 2, JValue.num 0], JValue.arr [JValue.num 0, JValue.num 2]]), ("matrixLabel", JValue.str "Scaling: 2I"), ("fnLabel", JValue.str "Linear Transformation"), ("description", JValue.str "Grid scales by factor of 2")]) }

/-- Translation of `get_eigenspace_spec` from `three_templates.py`. -/
def get_eigenspace_spec (topic : String) : ThreeSpec :=
  let specs : List (String × JValue) := [
    ("eigenvalues", JValue.obj [("matrix", JValue.arr [JValue.arr [JValue.num 3, JValue.num 1], JValue.arr [JValue.num 0, JValue.num 2]]), ("eigenvalues", JValue.arr [JValue.num 3, JValue.num 2]), ("eigenvectors", JValue.arr [JValue.obj [("x", JValue.num 1), ("y", JValue.num 0), ("lambda", JValue.num 3)], JValue.obj [("x", JValue.num (-1)), ("y", JValue.num 1), ("lambda", JValue.num 2)]]), ("fnLabel", JValue.str "Eigenvalues"), ("description", JValue.str "λ₁ = 3, λ₂ = 2")]),
    ("eigenvectors", JValue.obj [("matrix", JValue.arr [JValue.arr [JValue.num 2, JValue.num 1], JValue.arr [JValue.num 1, JValue.num 2]]), ("eigenvalues", JValue.arr [JValue.num 3, JValue.num 1]), ("eigenvectors", JValue.arr [JValue.obj [("x", JValue.num 1), ("y", JValue.num 1), ("lambda", JValue.num 3)], JValue.obj [("x", JValue.num 1), ("y", JValue.num (-1)), ("lambda", JValue.num 1)]]), ("fnLabel", JValue.str "Eigenvectors"), ("description", JValue.str "Directions unchanged by A")])
  ]
  { sceneType := SceneType.EIGENSPACE_VISUALIZATION,
    params := (List.lookup topic specs).getD (JValue.obj [("matrix", JValue.arr [JValue.arr [JValue.num 3, JValue.num 1], JValue.arr [JValue.num 0, JValue.num 2]]), ("eigenvalues", JValue.arr [JValue.num 3, JValue.num 2]), ("eigenvectors", JValue.arr [JValue.obj [("x", JValue.num 1), ("y", JValue.num 0), ("lambda", JValue.num 3)], JValue.obj [("x", JValue.num (-1)), ("y", JValue.num 1), ("lambda", JValue.num 2)]]), ("fnLabel", JValue.str "Eigenvalues"), ("description", JValue.str "λ₁ = 3, λ₂ = 2")]) }

/-- Translation of `get_projectile_motion_spec` from `three_templates.py`. -/
def get_projectile_motion_spec (topic : String) : ThreeSpec :=
  let specs : List (String × JValue) := [
    ("projectile_motion", JValue.obj [("initialVelocity", JValue.obj [("x", JValue.num 10), ("y", JValue.num 15)]), ("gravity", JValue.num (49 / 5)), ("angle", JValue.num (563 / 10)), ("maxHeight", JValue.num (23 / 2)), ("range", JValue.num (153 / 5)), ("fnLabel", JValue.str "Projectile Motion"), ("description", JValue.str "v₀ = 18 m/s at 56.3°")]),
    ("kinematics", JValue.obj [("initialVelocity", JValue.obj [("x", JValue.num 8), ("y", JValue.num 10)]), ("gravity", JValue.num (49 / 5)), ("angle", JValue.num (513 / 10)), ("maxHeight", JValue.num (51 / 10)), ("range", JValue.num (163 / 10)), ("fnLabel", JValue.str "Kinematic Equations"), ("description", JValue.str "x = v₀t, y = v₀t - ½gt²")])
  ]
  { sceneType := SceneType.PROJECTILE_MOTION,
    params := (List.lookup topic specs).getD (JValue.obj [("initialVelocity", JValue.obj [("x", JValue.num 10), ("y", JValue.num 15)]), ("gravity", JValue.num (49 / 5)), ("angle", JValue.num (563 / 10)), ("maxHeight", JValue.num (23 / 2)), ("range", JValue.num (153 / 5)), ("fnLabel", JValue.str "Projectile Motion"), ("description", JValue.str "v₀ = 18 m/s at 56.3°")]) }

/-- Translation of `get_force_diagram_spec` from `three_templates.py`. -/
def get_force_diagram_spec (topic : String) : ThreeSpec :=
  let specs : List (String × JValue) := [
    ("forces", JValue.obj [("forces", JValue.arr [JValue.obj [("x", JValue.num 0), ("y", JValue.num 5), ("label", JValue.str "N"), ("color", JValue.str "#3b82f6")], JValue.obj [("x", JValue.num 0), ("y", JValue.num (-5)), ("label", JValue.str "W"), ("color", JValue.str "#ef4444")], JValue.obj [("x", JValue.num 3), ("y", JValue.num 0), ("label", JValue.str "F"), ("color", JValue.str "#10b981")]]), ("fnLabel", JValue.str "Free Body Diagram"), ("description", JValue.str "N + W + F = ma")]),
    ("newtons_laws", JValue.obj [("forces", JValue.arr [JValue.obj [("x", JValue.num 5), ("y", JValue.num 0), ("label", JValue.str "F"), ("color", JValue.str "#3b82f6")], JValue.obj [("x", JValue.num (-2)), ("y", JValue.num 0), ("label", JValue.str "f"), ("color", JValue.str "#ef4444")]]), ("acceleration", JValue.obj [("x", JValue.num (3 / 2)), ("y", JValue.num 0)]), ("mass", JValue.num 2), ("fnLabel", JValue.str "Newton\x27s Second Law"), ("description", JValue.str "ΣF = ma")]),
    ("momentum", JValue.obj [("forces", JValue.arr [JValue.obj [("x", JValue.num 4), ("y", JValue.num 0), ("label", JValue.str "p₁"), ("color", JValue.str "#3b82f6")], JValue.obj [("x", JValue.num (-3)), ("y", JValue.num 0), ("label", JValue.str "p₂"), ("color", JValue.str "#10b981")]]), ("fnLabel", JValue.str "Momentum Conservation"), ("description", JValue.str "p = mv, Δp = FΔt")])
  ]
  { sceneType := SceneType.FORCE_DIAGRAM,
    params := (List.lookup topic specs).getD (JValue.obj [("forces", JValue.arr [JValue.obj [("x", JValue.num 0), ("y", JValue.num 5), ("label", JValue.str "N"), ("color", JValue.str "#3b82f6")], JValue.obj [("x", JValue.num 0), ("y", JValue.num (-5)), ("label", JValue.str "W"), ("color", JValue.str "#ef4444")], JValue.obj [("x", JValue.num 3), ("y", JValue.num 0), ("label", JValue.str "F"), ("color", JValue.str "#10b981")]]), ("fnLabel", JValue.str "Free Body Diagram"), ("description", JValue.str "N + W + F = ma")]) }

/-- Translation of `get_wave_spec` from `three_templates.py`. -/
def get_wave_spec (topic : String) : ThreeSpec :=
  let specs : List (String × JValue) := [
    ("waves", JValue.obj [("amplitude", JValue.num 1), ("wavelength", JValue.num 2), ("frequency", JValue.num 1), ("phase", JValue.num 0), ("range", JValue.arr [JValue.num 0, JValue.num 8]), ("fnLabel", JValue.str "Wave Motion"), ("description", JValue.str "y = A sin(kx - ωt)")]),
    ("oscillations", JValue.obj [("amplitude", JValue.num (3 / 2)), ("wavelength", JValue.num 3), ("frequency", JValue.num (1 / 2)), ("phase", JValue.num 0), ("range", JValue.arr [JValue.num 0, JValue.num 12]), ("fnLabel", JValue.str "Oscillations"), ("description", JValue.str "Simple Harmonic Motion")])
  ]
  { sceneType := SceneType.WAVE_VISUALIZATION,
    params := (List.lookup topic specs).getD (JValue.obj [("amplitude", JValue.num 1), ("wavelength", JValue.num 2), ("frequency", JValue.num 1), ("phase", JValue.num 0), ("range", JValue.arr [JValue.num 0, JValue.num 8]), ("fnLabel", JValue.str "Wave Motion"), ("description", JValue.str "y = A sin(kx - ωt)")]) }

/-- Translation of `get_pendulum_spec` from `three_templates.py`. -/
def get_pendulum_spec (topic : String) : ThreeSpec :=
  let _ := topic
  { sceneType := SceneType.PENDULUM_MOTION,
    params := JValue.obj [("length", JValue.num 2), ("initialAngle", JValue.num 30), ("gravity", JValue.num (49 / 5)), ("damping", JValue.num (1 / 20)), ("fnLabel", JValue.str "Simple Pendulum"), ("description", JValue.str "T = 2π√(L/g)")] }

/-- Translation of `get_distribution_spec` from `three_templates.py`. -/
def get_distribution_spec (topic : String) : ThreeSpec :=
  let specs : List (String × JValue) := [
    ("normal_distribution", JValue.obj [("mean", JValue.num 0), ("stdDev", JValue.num 1), ("showArea", JValue.bool true), ("highlightRegion", JValue.arr [JValue.num (-1), JValue.num 1]), ("range", JValue.arr [JValue.num (-4), JValue.num 4]), ("fnLabel", JValue.str "Normal Distribution"), ("description", JValue.str "μ = 0, σ = 1, P(-1 < X < 1) ≈ 68%")]),
    ("distributions", JValue.obj [("mean", JValue.num 5), ("stdDev", JValue.num 2), ("showArea", JValue.bool false), ("range", JValue.arr [JValue.num (-1), JValue.num 11]), ("fnLabel", JValue.str "Gaussian Distribution"), ("description", JValue.str "f(x) = (1/σ√2π)e^(-(x-μ)²/2σ²)")]),
    ("probability", JValue.obj [("mean", JValue.num 0), ("stdDev", JValue.num 1), ("showArea", JValue.bool true), ("highlightRegion", JValue.arr [JValue.num 0, JValue.num 2]), ("range", JValue.arr [JValue.num (-4), JValue.num 4]), ("fnLabel", JValue.str "Probability Density"), ("description", JValue.str "P(0 < X < 2) = shaded area")])
  ]
  { sceneType := SceneType.DISTRIBUTION_CURVE,
    params := (List.lookup topic specs).getD (JValue.obj [("mean", JValue.num 0), ("stdDev", JValue.num 1), ("showArea", JValue.bool true), ("highlightRegion", JValue.arr [JValue.num (-1), JValue.num 1]), ("range", JValue.arr [JValue.num (-4), JValue.num 4]), ("fnLabel", JValue.str "Normal Distribution"), ("description", JValue.str "μ = 0, σ = 1, P(-1 < X < 1) ≈ 68%")]) }

/-- Translation of `get_scatter_plot_spec` from `three_templates.py`. -/
def get_scatter_plot_spec (topic : String) : ThreeSpec :=
  let specs : List (String × JValue) := [
    ("regression", JValue.obj [("points", JValue.arr [JValue.obj [("x", JValue.num 1), ("y", JValue.num (21 / 10))], JValue.obj [("x", JValue.num 2), ("y", JValue.num (39 / 10))], JValue.obj [("x", JValue.num 3), ("y", JValue.num (31 / 5))], JValue.obj [("x", JValue.num 4), ("y", JValue.num (39 / 5))], JValue.obj [("x", JValue.num 5), ("y", JValue.num (101 / 10))], JValue.obj [("x", JValue.num 6), ("y", JValue.num (123 / 10))]]), ("regressionLine", JValue.obj [("slope", JValue.num 2), ("intercept", JValue.num (1 / 10))]), ("rSquared", JValue.num (49 / 50)), ("fnLabel", JValue.str "Linear Regression"), ("description", JValue.str "ŷ = 2x + 0.1, R² = 0.98")]),
    ("correlation", JValue.obj [("points", JValue.arr [JValue.obj [("x", JValue.num 1), ("y", JValue.num (3 / 2))], JValue.obj [("x", JValue.num 2), ("y", JValue.num (14 / 5))], JValue.obj [("x", JValue.num 3), ("y", JValue.num (21 / 5))], JValue.obj [("x", JValue.num 4), ("y", JValue.num (51 / 10))], JValue.obj [("x", JValue.num 5), ("y", JValue.num (34 / 5))], JValue.obj [("x", JValue.num 6), ("y", JValue.num (17 / 2))]]), ("regressionLine", JValue.obj [("slope", JValue.num (7 / 5)), ("intercept", JValue.num 0)]), ("correlation", JValue.num (19 / 20)), ("fnLabel", JValue.str "Correlation"), ("description", JValue.str "r = 0.95 (strong positive)")])
  ]
  { sceneType := SceneType.SCATTER_PLOT,
    params := (List.lookup topic specs).getD (JValue.obj [("points", JValue.arr [JValue.obj [("x", JValue.num 1), ("y", JValue.num (21 / 10))], JValue.obj [("x", JValue.num 2), ("y", JValue.num (39 / 10))], JValue.obj [("x", JValue.num 3), ("y", JValue.num (31 / 5))], JValue.obj [("x", JValue.num 4), ("y", JValue.num (39 / 5))], JValue.obj [("x", JValue.num 5), ("y", JValue.num (101 / 10))], JValue.obj [("x", JValue.num 6), ("y", JValue.num (123 / 10))]]), ("regressionLine", JValue.obj [("slope", JValue.num 2), ("intercept", JValue.num (1 / 10))]), ("rSquared", JValue.num (49 / 50)), ("fnLabel", JValue.str "Linear Regression"), ("description", JValue.str "ŷ = 2x + 0.1, R² = 0.98")]) }

/-- Translation of `get_probability_tree_spec` from `three_templates.py`. -/
def get_probability_tree_spec (topic : String) : ThreeSpec :=
  let specs : List (String × JValue) := [
    ("bayes_theorem", JValue.obj [("nodes", JValue.arr [JValue.obj [("id", JValue.str "root"), ("label", JValue.str "Start"), ("probability", JValue.num 1)], JValue.obj [("id", JValue.str "A"), ("label", JValue.str "A"), ("probability", JValue.num (3 / 10)), ("parent", JValue.str "root")], JValue.obj [("id", JValue.str "not_A"), ("label", JValue.str "A\x27"), ("probability", JValue.num (7 / 10)), ("parent", JValue.str "root")], JValue.obj [("id", JValue.str "B_given_A"), ("label", JValue.str "B|A"), ("probability", JValue.num (4 / 5)), ("parent", JValue.str "A")], JValue.obj [("id", JValue.str "B_given_not_A"), ("label", JValue.str "B|A\x27"), ("probability", JValue.num (1 / 5)), ("parent", JValue.str "not_A")]]), ("fnLabel", JValue.str "Bayes\x27 Theorem"), ("description", JValue.str "P(A|B) = P(B|A)P(A) / P(B)")]),
    ("expected_value", JValue.obj [("nodes", JValue.arr [JValue.obj [("id", JValue.str "root"), ("label", JValue.str "E[X]"), ("probability", JValue.num 1)], JValue.obj [("id", JValue.str "x1"), ("label", JValue.str "x₁=10"), ("probability", JValue.num (1 / 2)), ("parent", JValue.str "root")], JValue.obj [("id", JValue.str "x2"), ("label", JValue.str "x₂=20"), ("probability", JValue.num (3 / 10)), ("parent", JValue.str "root")], JValue.obj [("id", JValue.str "x3"), ("label", JValue.str "x₃=30"), ("probability", JValue.num (1 / 5)), ("parent", JValue.str "root")]]), ("expectedValue", JValue.num 16), ("fnLabel", JValue.str "Expected Value"), ("description", JValue.str "E[X] = Σ xᵢP(xᵢ) = 16")])
  ]
  { sceneType := SceneType.PROBABILITY_TREE,
    params := (List.lookup topic specs).getD (JValue.obj [("nodes", JValue.arr [JValue.obj [("id", JValue.str "root"), ("label", JValue.str "Start"), ("probability", JValue.num 1)], JValue.obj [("id", JValue.str "A"), ("label", JValue.str "A"), ("probability", JValue.num (3 / 10)), ("parent", JValue.str "root")], JValue.obj [("id", JValue.str "not_A"), ("label", JValue.str "A\x27"), ("probability", JValue.num (7 / 10)), ("parent", JValue.str "root")], JValue.obj [("id", JValue.str "B_given_A"), ("label", JValue.str "B|A"), ("probability", JValue.num (4 / 5)), ("parent", JValue.str "A")], JValue.obj [("id", JValue.str "B_given_not_A"), ("label", JValue.str "B|A\x27"), ("probability", JValue.num (1 / 5)), ("parent", JValue.str "not_A")]]), ("fnLabel", JValue.str "Bayes\x27 Theorem"), ("description", JValue.str "P(A|B) = P(B|A)P(A) / P(B)")]) }

/-- Translation of `get_graph_visualization_spec` from `three_templates.py`. -/
def get_graph_visualization_spec (topic : String) : ThreeSpec :=
  let specs : List (String × JValue) := [
    ("graphs", JValue.obj [("nodes", JValue.arr [JValue.obj [("id", JValue.str "A"), ("x", JValue.num 0), ("y", JValue.num 2)], JValue.obj [("id", JValue.str "B"), ("x", JValue.num 2), ("y", JValue.num 2)], JValue.obj [("id", JValue.str "C"), ("x", JValue.num 2), ("y", JValue.num 0)], JValue.obj [("id", JValue.str "D"), ("x", JValue.num 0), ("y", JValue.num 0)], JValue.obj [("id", JValue.str "E"), ("x", JValue.num 1), ("y", JValue.num 1)]]), ("edges", JValue.arr [JValue.obj [("source", JValue.str "A"), ("target", JValue.str "B")], JValue.obj [("source", JValue.str "B"), ("target", JValue.str "C")], JValue.obj [("source", JValue.str "C"), ("target", JValue.str "D")], JValue.obj [("source", JValue.str "D"), ("target", JValue.str "A")], JValue.obj [("source", JValue.str "A"), ("target", JValue.str "E")], JValue.obj [("source", JValue.str "E"), ("target", JValue.str "C")]]), ("fnLabel", JValue.str "Graph G = (V, E)"), ("description", JValue.str "|V| = 5, |E| = 6")]),
    ("paths", JValue.obj [("nodes", JValue.arr [JValue.obj [("id", JValue.str "1"), ("x", JValue.num 0), ("y", JValue.num 0)], JValue.obj [("id", JValue.str "2"), ("x", JValue.num 1), ("y", JValue.num 1)], JValue.obj [("id", JValue.str "3"), ("x", JValue.num 2), ("y", JValue.num 0)], JValue.obj [("id", JValue.str "4"), ("x", JValue.num 3), ("y", JValue.num 1)], JValue.obj [("id", JValue.str "5"), ("x", JValue.num 4), ("y", JValue.num 0)]]), ("edges", JValue.arr [JValue.obj [("source", JValue.str "1"), ("target", JValue.str "2")], JValue.obj [("source", JValue.str "2"), ("target", JValue.str "3")], JValue.obj [("source", JValue.str "3"), ("target", JValue.str "4")], JValue.obj [("source", JValue.str "4"), ("target", JValue.str "5")]]), ("highlightPath", JValue.arr [JValue.str "1", JValue.str "2", JValue.str "3", JValue.str "4", JValue.str "5"]), ("fnLabel", JValue.str "Path in Graph"), ("description", JValue.str "Path from 1 to 5")]),
    ("cycles", JValue.obj [("nodes", JValue.arr [JValue.obj [("id", JValue.str "A"), ("x", JValue.num 0), ("y", JValue.num (3 / 2))], JValue.obj [("id", JValue.str "B"), ("x", JValue.num (13 / 10)), ("y", JValue.num (1 / 2))], JValue.obj [("id", JValue.str "C"), ("x", JValue.num (4 / 5)), ("y", JValue.num (-1))], JValue.obj [("id", JValue.str "D"), ("x", JValue.num ((-4) / 5)), ("y", JValue.num (-1))], JValue.obj [("id", JValue.str "E"), ("x", JValue.num ((-13) / 10)), ("y", JValue.num (1 / 2))]]), ("edges", JValue.arr [JValue.obj [("source", JValue.str "A"), ("target", JValue.str "B")], JValue.obj [("source", JValue.str "B"), ("target", JValue.str "C")], JValue.obj [("source", JValue.str "C"), ("target", JValue.str "D")], JValue.obj [("source", JValue.str "D"), ("target", JValue.str "E")], JValue.obj [("source", JValue.str "E"), ("target", JValue.str "A")]]), ("highlightCycle", JValue.arr [JValue.str "A", JValue.str "B", JValue.str "C", JValue.str "D", JValue.str "E", JValue.str "A"]), ("fnLabel", JValue.str "Cycle C₅"), ("description", JValue.str "Pentagon cycle")]),
    ("connectivity", JValue.obj [("nodes", JValue.arr [JValue.obj [("id", JValue.str "1"), ("x", JValue.num 0), ("y", JValue.num 1)], JValue.obj [("id", JValue.str "2"), ("x", JValue.num 1), ("y", JValue.num 1)], JValue.obj [("id", JValue.str "3"), ("x", JValue.num 2), ("y", JValue.num 1)], JValue.obj [("id", JValue.str "4"), ("x", JValue.num 0), ("y", JValue.num 0)], JValue.obj [("id", JValue.str "5"), ("x", JValue.num 2), ("y", JValue.num 0)]]), ("edges", JValue.arr [JValue.obj [("source", JValue.str "1"), ("target", JValue.str "2")], JValue.obj [("source", JValue.str "2"), ("target", JValue.str "3")], JValue.obj [("source", JValue.str "4"), ("target", JValue.str "5")]]), ("components", JValue.arr [JValue.arr [JValue.str "1", JValue.str "2", JValue.str "3"], JValue.arr [JValue.str "4", JValue.str "5"]]), ("fnLabel", JValue.str "Connected Components"), ("description", JValue.str "Two components")])
  ]
  { sceneType := SceneType.GRAPH_VISUALIZATION,
    params := (List.lookup topic specs).getD (JValue.obj [("nodes", JValue.arr [JValue.obj [("id", JValue.str "A"), ("x", JValue.num 0), ("y", JValue.num 2)], JValue.obj [("id", JValue.str "B"), ("x", JValue.num 2), ("y", JValue.num 2)], JValue.obj [("id", JValue.str "C"), ("x", JValue.num 2), ("y", JValue.num 0)], JValue.obj [("id", JValue.str "D"), ("x", JValue.num 0), ("y", JValue.num 0)], JValue.obj [("id", JValue.str "E"), ("x", JValue.num 1), ("y", JValue.num 1)]]), ("edges", JValue.arr [JValue.obj [("source", JValue.str "A"), ("target", JValue.str "B")], JValue.obj [("source", JValue.str "B"), ("target", JValue.str "C")], JValue.obj [("source", JValue.str "C"), ("target", JValue.str "D")], JValue.obj [("source", JValue.str "D"), ("target", JValue.str "A")], JValue.obj [("source", JValue.str "A"), ("target", JValue.str "E")], JValue.obj [("source", JValue.str "E"), ("target", JValue.str "C")]]), ("fnLabel", JValue.str "Graph G = (V, E)"), ("description", JValue.str "|V| = 5, |E| = 6")]) }

/-- Translation of `get_tree_visualization_spec` from `three_templates.py`. -/
def get_tree_visualization_spec (topic : String) : ThreeSpec :=
  let specs : List (String × JValue) := [
    ("trees", JValue.obj [("root", JValue.obj [("id", JValue.str "1"), ("value", JValue.num 10)]), ("nodes", JValue.arr [JValue.obj [("id", JValue.str "2"), ("value", JValue.num 5), ("parent", JValue.str "1")], JValue.obj [("id", JValue.str "3"), ("value", JValue.num 15), ("parent", JValue.str "1")], JValue.obj [("id", JValue.str "4"), ("value", JValue.num 3), ("parent", JValue.str "2")], JValue.obj [("id", JValue.str "5"), ("value", JValue.num 7), ("parent", JValue.str "2")], JValue.obj [("id", JValue.str "6"), ("value", JValue.num 12), ("parent", JValue.str "3")], JValue.obj [("id", JValue.str "7"), ("value", JValue.num 20), ("parent", JValue.str "3")]]), ("treeType", JValue.str "binary"), ("fnLabel", JValue.str "Binary Search Tree"), ("description", JValue.str "Height = 2, Nodes = 7")]),
    ("recursion", JValue.obj [("root", JValue.obj [("id", JValue.str "fib(5)"), ("value", JValue.num 5)]), ("nodes", JValue.arr [JValue.obj [("id", JValue.str "fib(4)"), ("value", JValue.num 3), ("parent", JValue.str "fib(5)")], JValue.obj [("id", JValue.str "fib(3)"), ("value", JValue.num 2), ("parent", JValue.str "fib(5)")], JValue.obj [("id", JValue.str "fib(3)_"), ("value", JValue.num 2), ("parent", JValue.str "fib(4)")], JValue.obj [("id", JValue.str "fib(2)"), ("value", JValue.num 1), ("parent", JValue.str "fib(4)")]]), ("treeType", JValue.str "recursion"), ("fnLabel", JValue.str "Recursion Tree"), ("description", JValue.str "fib(5) = fib(4) + fib(3)")])
  ]
  { sceneType := SceneType.TREE_VISUALIZATION,
    params := (List.lookup topic specs).getD (JValue.obj [("root", JValue.obj [("id", JValue.str "1"), ("value", JValue.num 10)]), ("nodes", JValue.arr [JValue.obj [("id", JValue.str "2"), ("value", JValue.num 5), ("parent", JValue.str "1")], JValue.obj [("id", JValue.str "3"), ("value", JValue.num 15), ("parent", JValue.str "1")], JValue.obj [("id", JValue.str "4"), ("value", JValue.num 3), ("parent", JValue.str "2")], JValue.obj [("id", JValue.str "5"), ("value", JValue.num 7), ("parent", JValue.str "2")], JValue.obj [("id", JValue.str "6"), ("value", JValue.num 12), ("parent", JValue.str "3")], JValue.obj [("id", JValue.str "7"), ("value", JValue.num 20), ("parent", JValue.str "3")]]), ("treeType", JValue.str "binary"), ("fnLabel", JValue.str "Binary Search Tree"), ("description", JValue.str "Height = 2, Nodes = 7")]) }

/-- Translation of `get_set_diagram_spec` from `three_templates.py`. -/
def get_set_diagram_spec (topic : String) : ThreeSpec :=
  let specs : List (String × JValue) := [
    ("sets", JValue.obj [("sets", JValue.arr [JValue.obj [("id", JValue.str "A"), ("label", JValue.str "A"), ("elements", JValue.arr [JValue.num 1, JValue.num 2, JValue.num 3, JValue.num 4, JValue.num 5])], JValue.obj [("id", JValue.str "B"), ("label", JValue.str "B"), ("elements", JValue.arr [JValue.num 4, JValue.num 5, JValue.num 6, JValue.num 7, JValue.num 8])]]), ("intersection", JValue.arr [JValue.num 4, JValue.num 5]), ("union", JValue.arr [JValue.num 1, JValue.num 2, JValue.num 3, JValue.num 4, JValue.num 5, JValue.num 6, JValue.num 7, JValue.num 8]), ("fnLabel", JValue.str "Set Operations"), ("description", JValue.str "A ∩ B = \x7b4, 5\x7d")]),
    ("logic", JValue.obj [("sets", JValue.arr [JValue.obj [("id", JValue.str "P"), ("label", JValue.str "P"), ("elements", JValue.arr [JValue.str "a", JValue.str "b", JValue.str "c"])], JValue.obj [("id", JValue.str "Q"), ("label", JValue.str "Q"), ("elements", JValue.arr [JValue.str "b", JValue.str "c", JValue.str "d"])]]), ("intersection", JValue.arr [JValue.str "b", JValue.str "c"]), ("fnLabel", JValue.str "Logical Sets"), ("description", JValue.str "P ∧ Q represented as intersection")]),
    ("combinatorics", JValue.obj [("sets", JValue.arr [JValue.obj [("id", JValue.str "S"), ("label", JValue.str "Sample Space"), ("elements", JValue.arr [JValue.num 1, JValue.num 2, JValue.num 3, JValue.num 4, JValue.num 5, JValue.num 6])], JValue.obj [("id", JValue.str "E"), ("label", JValue.str "Event"), ("elements", JValue.arr [JValue.num 2, JValue.num 4, JValue.num 6])]]), ("fnLabel", JValue.str "Sample Space"), ("description", JValue.str "P(E) = |E|/|S| = 1/2")])
  ]
  { sceneType := SceneType.SET_DIAGRAM,
    params := (List.lookup topic specs).getD (JValue.obj [("sets", JValue.arr [JValue.obj [("id", JValue.str "A"), ("label", JValue.str "A"), ("elements", JValue.arr [JValue.num 1, JValue.num 2, JValue.num 3, JValue.num 4, JValue.num 5])], JValue.obj [("id", JValue.str "B"), ("label", JValue.str "B"), ("elements", JValue.arr [JValue.num 4, JValue.num 5, JValue.num 6, JValue.num 7, JValue.num 8])]]), ("intersection", JValue.arr [JValue.num 4, JValue.num 5]), ("union", JValue.arr [JValue.num 1, JValue.num 2, JValue.num 3, JValue.num 4, JValue.num 5, JValue.num 6, JValue.num 7, JValue.num 8]), ("fnLabel", JValue.str "Set Operations"), ("description", JValue.str "A ∩ B = \x7b4, 5\x7d")]) }

/-- Translation of `get_three_spec_for_topic` from `three_templates.py`:
topic-keyed dispatch over the spec constructors, with the coordinate-system
spec as the default branch. -/
def get_three_spec_for_topic (topic : String) : ThreeSpec :=
  let topic_lower := pyReplace1 (pyLower topic) ' ' '_'
  if topic_lower ∈ ["derivatives", "power_rule"] then
    get_derivative_graph_spec topic_lower
  else if topic_lower ∈ ["chain_rule"] then
    get_chain_rule_composition_spec topic_lower
  else if topic_lower ∈ ["product_rule", "quotient_rule"] then
    get_product_rule_split_spec topic_lower
  else if topic_lower ∈ ["integrals", "definite_integrals", "integration_by_parts", "substitution"] then
    get_integral_area_spec topic_lower
  else if topic_lower ∈ ["limits", "continuity"] then
    get_limit_approach_spec topic_lower
  else if topic_lower ∈ ["neural_networks", "perceptron", "convolutional_networks"] then
    get_neural_network_diagram_spec topic_lower
  else if topic_lower ∈ ["relu", "sigmoid", "activation_functions"] then
    get_activation_function_spec topic_lower
  else if topic_lower ∈ ["gradient_descent", "backpropagation", "loss_functions"] then
    get_gradient_descent_spec topic_lower
  else if topic_lower ∈ ["regularization"] then
    get_neural_network_diagram_spec "neural_networks"
  else if topic_lower ∈ ["vectors", "dot_product", "cross_product"] then
    get_vector_visualization_spec topic_lower
  else if topic_lower ∈ ["matrices", "linear_transformations", "matrix_multiplication"] then
    get_matrix_transformation_spec topic_lower
  else if topic_lower ∈ ["eigenvalues", "eigenvectors"] then
    get_eigenspace_spec topic_lower
  else if topic_lower ∈ ["determinants", "inverse_matrix", "vector_spaces"] then
    get_matrix_transformation_spec "matrices"
  else if topic_lower ∈ ["projectile_motion", "kinematics"] then
    get_projectile_motion_spec topic_lower
  else if topic_lower ∈ ["forces", "newtons_laws", "momentum", "mechanics"] then
    get_force_diagram_spec topic_lower
  else if topic_lower ∈ ["waves", "oscillations"] then
    get_wave_spec topic_lower
  else if topic_lower ∈ ["rotation", "energy", "work"] then
    get_pendulum_spec topic_lower
  else if topic_lower ∈ ["normal_distribution", "distributions", "probability", "variance"] then
    get_distribution_spec topic_lower
  else if topic_lower ∈ ["regression", "correlation"] then
    get_scatter_plot_spec topic_lower
  else if topic_lower ∈ ["bayes_theorem", "expected_value"] then
    get_probability_tree_spec topic_lower
  else if topic_lower ∈ ["hypothesis_testing", "confidence_intervals"] then
    get_distribution_spec "normal_distribution"
  else if topic_lower ∈ ["graphs", "paths", "cycles", "connectivity"] then
    get_graph_visualization_spec topic_lower
  else if topic_lower ∈ ["trees", "recursion"] then
    get_tree_visualization_spec topic_lower
  else if topic_lower ∈ ["sets", "logic", "combinatorics", "permutations", "combinations", "proofs"] then
    get_set_diagram_spec topic_lower
  else
    get_coordinate_system_spec topic_lower

/-- Translation of `validate_three_spec` from `three_templates.py`: a candidate
passes exactly when it carries a `"sceneType"` key whose value is one of the
`SceneType` string values and a `"params"` key. -/
def validate_three_spec (spec : SpecDict) : Bool :=
  match spec.sceneType? with
  | none => false
  | some v =>
    match v with
    | .str s => if (sceneTypeValues.contains s) then spec.params?.isSome else false
    | _ => false

/-- The XML header common to every hand-authored SVG template in `gemini_image.py`. -/
def svgXmlHeader : String := "<?xml version=\"1.0\" encoding=\"UTF-8\"?>\n"

/-- Translation of `generate_limit_svg` from `gemini_image.py` (literal SVG body). -/
def generate_limit_svg (title summary : String) : String :=
  svgXmlHeader ++ ("<svg width=\"800\" height=\"600\" xmlns=\"http://www.w3.org/2000/svg\">\n  <!-- Background -->\n  <rect width=\"800\" height=\"600\" fill=\"#f8f9fa\"/>\n  \n  <!-- Title -->\n  <text x=\"400\" y=\"40\" text-anchor=\"middle\" font-size=\"28\" font-weight=\"bold\" fill=\"#1f2937\">\n    " ++ title ++ "\n  </text>\n  \n  <!-- Axes -->\n  <line x1=\"100\" y1=\"300\" x2=\"700\" y2=\"300\" stroke=\"#6b7280\" stroke-width=\"2\"/>\n  <line x1=\"400\" y1=\"100\" x2=\"400\" y2=\"500\" stroke=\"#6b7280\" stroke-width=\"2\"/>\n  \n  <!-- Curve approaching limit -->\n  <path d=\"M 150 400 Q 300 200, 395 150\" fill=\"none\" stroke=\"#3b82f6\" stroke-width=\"3\"/>\n  <path d=\"M 405 150 Q 500 200, 650 400\" fill=\"none\" stroke=\"#3b82f6\" stroke-width=\"3\"/>\n  \n  <!-- Limit point (open circle) -->\n  <circle cx=\"400\" cy=\"150\" r=\"8\" fill=\"none\" stroke=\"#ef4444\" stroke-width=\"3\"/>\n  \n  <!-- Limit value (filled circle) -->\n  <circle cx=\"400\" cy=\"150\" r=\"3\" fill=\"#ef4444\"/>\n  \n  <!-- Labels -->\n  <text x=\"400\" y=\"530\" text-anchor=\"middle\" font-size=\"18\" fill=\"#4b5563\">x</text>\n  <text x=\"80\" y=\"110\" text-anchor=\"middle\" font-size=\"18\" fill=\"#4b5563\">f(x)</text>\n  \n  <!-- Limit notation -->\n  <text x=\"400\" y=\"580\" text-anchor=\"middle\" font-size=\"20\" fill=\"#1f2937\">\n    lim f(x) = L\n  </text>\n  <text x=\"365\" y=\"595\" text-anchor=\"middle\" font-size=\"14\" fill=\"#1f2937\">\n    x→a\n  </text>\n</svg>")

/-- Translation of `generate_implicit_svg` from `gemini_image.py` (literal SVG body). -/
def generate_implicit_svg (title summary : String) : String :=
  svgXmlHeader ++ ("<svg width=\"800\" height=\"600\" xmlns=\"http://www.w3.org/2000/svg\">\n  <rect width=\"800\" height=\"600\" fill=\"#f8f9fa\"/>\n  \n  <text x=\"400\" y=\"40\" text-anchor=\"middle\" font-size=\"28\" font-weight=\"bold\" fill=\"#1f2937\">\n    " ++ title ++ "\n  </text>\n  \n  <!-- Circle (implicit curve) -->\n  <circle cx=\"400\" cy=\"300\" r=\"150\" fill=\"none\" stroke=\"#3b82f6\" stroke-width=\"3\"/>\n  \n  <!-- Point on circle -->\n  <circle cx=\"506\" cy=\"300\" r=\"6\" fill=\"#ef4444\"/>\n  \n  <!-- Tangent line -->\n  <line x1=\"506\" y1=\"200\" x2=\"506\" y2=\"400\" stroke=\"#10b981\" stroke-width=\"2\" stroke-dasharray=\"5,5\"/>\n  \n  <!-- Labels -->\n  <text x=\"400\" y=\"80\" text-anchor=\"middle\" font-size=\"18\" fill=\"#4b5563\">\n    x² + y² = r²\n  </text>\n  \n  <text x=\"520\" y=\"295\" font-size=\"16\" fill=\"#ef4444\">\n    (x₀, y₀)\n  </text>\n  \n  <text x=\"520\" y=\"220\" font-size=\"16\" fill=\"#10b981\">\n    dy/dx\n  </text>\n</svg>")

/-- Translation of `generate_related_rates_svg` from `gemini_image.py` (literal SVG body). -/
def generate_related_rates_svg (title summary : String) : String :=
  svgXmlHeader ++ ("<svg width=\"800\" height=\"600\" xmlns=\"http://www.w3.org/2000/svg\">\n  <rect width=\"800\" height=\"600\" fill=\"#f8f9fa\"/>\n  \n  <text x=\"400\" y=\"40\" text-anchor=\"middle\" font-size=\"28\" font-weight=\"bold\" fill=\"#1f2937\">\n    " ++ title ++ "\n  </text>\n  \n  <!-- Triangle for related rates -->\n  <path d=\"M 300 400 L 500 400 L 500 200 Z\" fill=\"none\" stroke=\"#3b82f6\" stroke-width=\"3\"/>\n  \n  <!-- Height label -->\n  <line x1=\"510\" y1=\"200\" x2=\"510\" y2=\"400\" stroke=\"#ef4444\" stroke-width=\"2\"/>\n  <text x=\"530\" y=\"310\" font-size=\"18\" fill=\"#ef4444\">h</text>\n  \n  <!-- Base label -->\n  <line x1=\"300\" y1=\"410\" x2=\"500\" y2=\"410\" stroke=\"#10b981\" stroke-width=\"2\"/>\n  <text x=\"390\" y=\"435\" font-size=\"18\" fill=\"#10b981\">b</text>\n  \n  <!-- Rate arrows -->\n  <path d=\"M 520 250 L 520 230\" stroke=\"#ef4444\" stroke-width=\"2\" marker-end=\"url(#arrowhead)\"/>\n  <text x=\"535\" y=\"245\" font-size=\"14\" fill=\"#ef4444\">dh/dt</text>\n  \n  <defs>\n    <marker id=\"arrowhead\" markerWidth=\"10\" markerHeight=\"10\" refX=\"5\" refY=\"5\" orient=\"auto\">\n      <polygon points=\"0 0, 10 5, 0 10\" fill=\"#ef4444\"/>\n    </marker>\n  </defs>\n</svg>")

/-- Translation of `generate_generic_svg` from `gemini_image.py` (literal SVG body). -/
def generate_generic_svg (title summary : String) : String :=
  svgXmlHeader ++ ("<svg width=\"800\" height=\"600\" xmlns=\"http://www.w3.org/2000/svg\">\n  <rect width=\"800\" height=\"600\" fill=\"#f8f9fa\"/>\n\n  <text x=\"400\" y=\"60\" text-anchor=\"middle\" font-size=\"32\" font-weight=\"bold\" fill=\"#1f2937\">\n    " ++ title ++ "\n  </text>\n\n  <!-- Coordinate system -->\n  <line x1=\"100\" y1=\"300\" x2=\"700\" y2=\"300\" stroke=\"#6b7280\" stroke-width=\"2\"/>\n  <line x1=\"400\" y1=\"100\" x2=\"400\" y2=\"500\" stroke=\"#6b7280\" stroke-width=\"2\"/>\n\n  <!-- Generic curve -->\n  <path d=\"M 150 400 Q 300 150, 650 250\" fill=\"none\" stroke=\"#3b82f6\" stroke-width=\"3\"/>\n\n  <!-- Axes labels -->\n  <text x=\"690\" y=\"320\" font-size=\"18\" fill=\"#4b5563\">x</text>\n  <text x=\"385\" y=\"115\" font-size=\"18\" fill=\"#4b5563\">y</text>\n\n  <!-- Summary text -->\n  <foreignObject x=\"50\" y=\"520\" width=\"700\" height=\"60\">\n    <div xmlns=\"http://www.w3.org/1999/xhtml\" style=\"font-family: sans-serif; font-size: 14px; color: #4b5563; text-align: center;\">\n      " ++ (pyTake summary 150) ++ "...\n    </div>\n  </foreignObject>\n</svg>")

/-- Translation of `generate_calculus_concept_svg` from `gemini_image.py` (literal SVG body). -/
def generate_calculus_concept_svg (title summary : String) : String :=
  svgXmlHeader ++ ("<svg width=\"800\" height=\"600\" xmlns=\"http://www.w3.org/2000/svg\">\n  <rect width=\"800\" height=\"600\" fill=\"#f8f9fa\"/>\n\n  <text x=\"400\" y=\"50\" text-anchor=\"middle\" font-size=\"28\" font-weight=\"bold\" fill=\"#1f2937\">\n    " ++ title ++ "\n  </text>\n\n  <!-- Function curve -->\n  <path d=\"M 100 400 Q 200 100, 400 250 T 700 150\" fill=\"none\" stroke=\"#3b82f6\" stroke-width=\"3\"/>\n\n  <!-- Integral symbol -->\n  <text x=\"150\" y=\"200\" font-size=\"60\" fill=\"#10b981\">∫</text>\n\n  <!-- Derivative notation -->\n  <text x=\"550\" y=\"200\" font-size=\"36\" fill=\"#ef4444\">d/dx</text>\n\n  <!-- Fundamental theorem arrow -->\n  <path d=\"M 250 200 L 500 200\" stroke=\"#6b7280\" stroke-width=\"2\" marker-end=\"url(#arrow)\"/>\n  <text x=\"375\" y=\"180\" text-anchor=\"middle\" font-size=\"14\" fill=\"#4b5563\">F(b) - F(a)</text>\n\n  <defs>\n    <marker id=\"arrow\" markerWidth=\"10\" markerHeight=\"10\" refX=\"9\" refY=\"3\" orient=\"auto\">\n      <path d=\"M0,0 L0,6 L9,3 z\" fill=\"#6b7280\"/>\n    </marker>\n  </defs>\n\n  <!-- Summary -->\n  <text x=\"400\" y=\"550\" text-anchor=\"middle\" font-size=\"16\" fill=\"#4b5563\">\n    " ++ (pyTake summary 80) ++ "\n  </text>\n</svg>")

/-- Translation of `generate_loss_function_svg` from `gemini_image.py` (literal SVG body). -/
def generate_loss_function_svg (title summary : String) : String :=
  svgXmlHeader ++ ("<svg width=\"800\" height=\"600\" xmlns=\"http://www.w3.org/2000/svg\">\n  <rect width=\"800\" height=\"600\" fill=\"#f8f9fa\"/>\n\n  <text x=\"400\" y=\"50\" text-anchor=\"middle\" font-size=\"28\" font-weight=\"bold\" fill=\"#1f2937\">\n    " ++ title ++ "\n  </text>\n\n  <!-- Axes -->\n  <line x1=\"100\" y1=\"450\" x2=\"700\" y2=\"450\" stroke=\"#6b7280\" stroke-width=\"2\"/>\n  <line x1=\"100\" y1=\"100\" x2=\"100\" y2=\"450\" stroke=\"#6b7280\" stroke-width=\"2\"/>\n\n  <!-- MSE curve -->\n  <path d=\"M 100 150 Q 300 400, 400 450 Q 500 400, 700 150\" fill=\"none\" stroke=\"#ef4444\" stroke-width=\"3\"/>\n  <text x=\"720\" y=\"150\" font-size=\"14\" fill=\"#ef4444\">MSE</text>\n\n  <!-- Cross-entropy curve -->\n  <path d=\"M 100 200 Q 250 380, 400 420 Q 550 380, 700 200\" fill=\"none\" stroke=\"#3b82f6\" stroke-width=\"3\"/>\n  <text x=\"720\" y=\"200\" font-size=\"14\" fill=\"#3b82f6\">Cross-Entropy</text>\n\n  <!-- Minimum point -->\n  <circle cx=\"400\" cy=\"430\" r=\"8\" fill=\"#10b981\"/>\n  <text x=\"400\" y=\"480\" text-anchor=\"middle\" font-size=\"14\" fill=\"#10b981\">Optimal θ*</text>\n\n  <!-- Labels -->\n  <text x=\"720\" y=\"470\" font-size=\"16\" fill=\"#4b5563\">θ</text>\n  <text x=\"80\" y=\"80\" font-size=\"16\" fill=\"#4b5563\">L(θ)</text>\n\n  <!-- Equation -->\n  <text x=\"400\" y=\"550\" text-anchor=\"middle\" font-size=\"18\" fill=\"#1f2937\">\n    MSE = (1/n) Σ(y - ŷ)²\n  </text>\n</svg>")

/-- Translation of `generate_regularization_svg` from `gemini_image.py` (literal SVG body). -/
def generate_regularization_svg (title summary : String) : String :=
  svgXmlHeader ++ ("<svg width=\"800\" height=\"600\" xmlns=\"http://www.w3.org/2000/svg\">\n  <rect width=\"800\" height=\"600\" fill=\"#f8f9fa\"/>\n\n  <text x=\"400\" y=\"50\" text-anchor=\"middle\" font-size=\"28\" font-weight=\"bold\" fill=\"#1f2937\">\n    " ++ title ++ "\n  </text>\n\n  <!-- L1 (Lasso) - Diamond -->\n  <polygon points=\"200,250 300,150 400,250 300,350\" fill=\"none\" stroke=\"#3b82f6\" stroke-width=\"3\"/>\n  <text x=\"300\" y=\"400\" text-anchor=\"middle\" font-size=\"16\" fill=\"#3b82f6\">L1 (Lasso)</text>\n  <text x=\"300\" y=\"420\" text-anchor=\"middle\" font-size=\"14\" fill=\"#4b5563\">|w₁| + |w₂| ≤ t</text>\n\n  <!-- L2 (Ridge) - Circle -->\n  <circle cx=\"550\" cy=\"250\" r=\"100\" fill=\"none\" stroke=\"#ef4444\" stroke-width=\"3\"/>\n  <text x=\"550\" y=\"400\" text-anchor=\"middle\" font-size=\"16\" fill=\"#ef4444\">L2 (Ridge)</text>\n  <text x=\"550\" y=\"420\" text-anchor=\"middle\" font-size=\"14\" fill=\"#4b5563\">w₁² + w₂² ≤ t</text>\n\n  <!-- Contour lines (loss function) -->\n  <ellipse cx=\"300\" cy=\"200\" rx=\"50\" ry=\"30\" fill=\"none\" stroke=\"#10b981\" stroke-width=\"1\" stroke-dasharray=\"5,5\"/>\n  <ellipse cx=\"550\" cy=\"200\" rx=\"50\" ry=\"30\" fill=\"none\" stroke=\"#10b981\" stroke-width=\"1\" stroke-dasharray=\"5,5\"/>\n\n  <!-- Equation -->\n  <text x=\"400\" y=\"520\" text-anchor=\"middle\" font-size=\"18\" fill=\"#1f2937\">\n    Loss = L(w) + λR(w)\n  </text>\n</svg>")

/-- Translation of `generate_determinant_svg` from `gemini_image.py` (literal SVG body). -/
def generate_determinant_svg (title summary : String) : String :=
  svgXmlHeader ++ ("<svg width=\"800\" height=\"600\" xmlns=\"http://www.w3.org/2000/svg\">\n  <rect width=\"800\" height=\"600\" fill=\"#f8f9fa\"/>\n\n  <text x=\"400\" y=\"50\" text-anchor=\"middle\" font-size=\"28\" font-weight=\"bold\" fill=\"#1f2937\">\n    " ++ title ++ "\n  </text>\n\n  <!-- Original unit square -->\n  <polygon points=\"200,400 300,400 300,300 200,300\" fill=\"#3b82f6\" fill-opacity=\"0.3\" stroke=\"#3b82f6\" stroke-width=\"2\"/>\n  <text x=\"250\" y=\"450\" text-anchor=\"middle\" font-size=\"14\" fill=\"#3b82f6\">Original (Area = 1)</text>\n\n  <!-- Transformed parallelogram -->\n  <polygon points=\"500,400 650,380 700,280 550,300\" fill=\"#ef4444\" fill-opacity=\"0.3\" stroke=\"#ef4444\" stroke-width=\"2\"/>\n  <text x=\"600\" y=\"450\" text-anchor=\"middle\" font-size=\"14\" fill=\"#ef4444\">Transformed (Area = |det(A)|)</text>\n\n  <!-- Arrow -->\n  <path d=\"M 350 350 L 450 350\" stroke=\"#6b7280\" stroke-width=\"2\" marker-end=\"url(#arrow2)\"/>\n  <text x=\"400\" y=\"330\" text-anchor=\"middle\" font-size=\"16\" fill=\"#4b5563\">A</text>\n\n  <defs>\n    <marker id=\"arrow2\" markerWidth=\"10\" markerHeight=\"10\" refX=\"9\" refY=\"3\" orient=\"auto\">\n      <path d=\"M0,0 L0,6 L9,3 z\" fill=\"#6b7280\"/>\n    </marker>\n  </defs>\n\n  <!-- Formula -->\n  <text x=\"400\" y=\"530\" text-anchor=\"middle\" font-size=\"20\" fill=\"#1f2937\">\n    det(A) = ad - bc for A = [a b; c d]\n  </text>\n</svg>")

/-- Translation of `generate_matrix_inverse_svg` from `gemini_image.py` (literal SVG body). -/
def generate_matrix_inverse_svg (title summary : String) : String :=
  svgXmlHeader ++ ("<svg width=\"800\" height=\"600\" xmlns=\"http://www.w3.org/2000/svg\">\n  <rect width=\"800\" height=\"600\" fill=\"#f8f9fa\"/>\n\n  <text x=\"400\" y=\"50\" text-anchor=\"middle\" font-size=\"28\" font-weight=\"bold\" fill=\"#1f2937\">\n    " ++ title ++ "\n  </text>\n\n  <!-- Matrix A -->\n  <rect x=\"100\" y=\"200\" width=\"120\" height=\"120\" fill=\"none\" stroke=\"#3b82f6\" stroke-width=\"3\"/>\n  <text x=\"160\" y=\"270\" text-anchor=\"middle\" font-size=\"24\" fill=\"#3b82f6\">A</text>\n\n  <!-- Times symbol -->\n  <text x=\"280\" y=\"270\" text-anchor=\"middle\" font-size=\"36\" fill=\"#4b5563\">×</text>\n\n  <!-- Matrix A^-1 -->\n  <rect x=\"340\" y=\"200\" width=\"120\" height=\"120\" fill=\"none\" stroke=\"#ef4444\" stroke-width=\"3\"/>\n  <text x=\"400\" y=\"270\" text-anchor=\"middle\" font-size=\"24\" fill=\"#ef4444\">A⁻¹</text>\n\n  <!-- Equals symbol -->\n  <text x=\"520\" y=\"270\" text-anchor=\"middle\" font-size=\"36\" fill=\"#4b5563\">=</text>\n\n  <!-- Identity matrix I -->\n  <rect x=\"580\" y=\"200\" width=\"120\" height=\"120\" fill=\"none\" stroke=\"#10b981\" stroke-width=\"3\"/>\n  <text x=\"640\" y=\"270\" text-anchor=\"middle\" font-size=\"24\" fill=\"#10b981\">I</text>\n\n  <!-- Formula -->\n  <text x=\"400\" y=\"420\" text-anchor=\"middle\" font-size=\"18\" fill=\"#1f2937\">\n    A⁻¹ = (1/det(A)) × adj(A)\n  </text>\n\n  <!-- Condition -->\n  <text x=\"400\" y=\"480\" text-anchor=\"middle\" font-size=\"16\" fill=\"#4b5563\">\n    Exists only if det(A) ≠ 0\n  </text>\n</svg>")

/-- Translation of `generate_vector_space_svg` from `gemini_image.py` (literal SVG body). -/
def generate_vector_space_svg (title summary : String) : String :=
  svgXmlHeader ++ ("<svg width=\"800\" height=\"600\" xmlns=\"http://www.w3.org/2000/svg\">\n  <rect width=\"800\" height=\"600\" fill=\"#f8f9fa\"/>\n\n  <text x=\"400\" y=\"50\" text-anchor=\"middle\" font-size=\"28\" font-weight=\"bold\" fill=\"#1f2937\">\n    " ++ title ++ "\n  </text>\n\n  <!-- Coordinate system -->\n  <line x1=\"400\" y1=\"100\" x2=\"400\" y2=\"500\" stroke=\"#6b7280\" stroke-width=\"2\"/>\n  <line x1=\"100\" y1=\"350\" x2=\"700\" y2=\"350\" stroke=\"#6b7280\" stroke-width=\"2\"/>\n\n  <!-- Basis vectors -->\n  <line x1=\"400\" y1=\"350\" x2=\"550\" y2=\"250\" stroke=\"#3b82f6\" stroke-width=\"3\" marker-end=\"url(#arrow3)\"/>\n  <text x=\"560\" y=\"240\" font-size=\"16\" fill=\"#3b82f6\">v₁</text>\n\n  <line x1=\"400\" y1=\"350\" x2=\"300\" y2=\"200\" stroke=\"#ef4444\" stroke-width=\"3\" marker-end=\"url(#arrow3)\"/>\n  <text x=\"280\" y=\"190\" font-size=\"16\" fill=\"#ef4444\">v₂</text>\n\n  <!-- Span region -->\n  <polygon points=\"100,500 400,350 700,200 400,350\" fill=\"#10b981\" fill-opacity=\"0.2\" stroke=\"none\"/>\n  <text x=\"500\" y=\"450\" font-size=\"16\" fill=\"#10b981\">span(v₁, v₂)</text>\n\n  <defs>\n    <marker id=\"arrow3\" markerWidth=\"10\" markerHeight=\"10\" refX=\"9\" refY=\"3\" orient=\"auto\">\n      <path d=\"M0,0 L0,6 L9,3 z\" fill=\"#3b82f6\"/>\n    </marker>\n  </defs>\n\n  <!-- Properties -->\n  <text x=\"400\" y=\"540\" text-anchor=\"middle\" font-size=\"14\" fill=\"#4b5563\">\n    Closed under addition and scalar multiplication\n  </text>\n</svg>")

/-- Translation of `generate_newtons_laws_svg` from `gemini_image.py` (literal SVG body). -/
def generate_newtons_laws_svg (title summary : String) : String :=
  svgXmlHeader ++ ("<svg width=\"800\" height=\"600\" xmlns=\"http://www.w3.org/2000/svg\">\n  <rect width=\"800\" height=\"600\" fill=\"#f8f9fa\"/>\n\n  <text x=\"400\" y=\"50\" text-anchor=\"middle\" font-size=\"28\" font-weight=\"bold\" fill=\"#1f2937\">\n    " ++ title ++ "\n  </text>\n\n  <!-- First Law box -->\n  <rect x=\"50\" y=\"100\" width=\"220\" height=\"150\" rx=\"10\" fill=\"#3b82f6\" fill-opacity=\"0.1\" stroke=\"#3b82f6\" stroke-width=\"2\"/>\n  <text x=\"160\" y=\"130\" text-anchor=\"middle\" font-size=\"16\" font-weight=\"bold\" fill=\"#3b82f6\">First Law</text>\n  <text x=\"160\" y=\"160\" text-anchor=\"middle\" font-size=\"14\" fill=\"#4b5563\">Inertia</text>\n  <text x=\"160\" y=\"190\" text-anchor=\"middle\" font-size=\"12\" fill=\"#4b5563\">Object at rest stays</text>\n  <text x=\"160\" y=\"210\" text-anchor=\"middle\" font-size=\"12\" fill=\"#4b5563\">at rest unless acted</text>\n  <text x=\"160\" y=\"230\" text-anchor=\"middle\" font-size=\"12\" fill=\"#4b5563\">upon by a force</text>\n\n  <!-- Second Law box -->\n  <rect x=\"290\" y=\"100\" width=\"220\" height=\"150\" rx=\"10\" fill=\"#ef4444\" fill-opacity=\"0.1\" stroke=\"#ef4444\" stroke-width=\"2\"/>\n  <text x=\"400\" y=\"130\" text-anchor=\"middle\" font-size=\"16\" font-weight=\"bold\" fill=\"#ef4444\">Second Law</text>\n  <text x=\"400\" y=\"170\" text-anchor=\"middle\" font-size=\"24\" fill=\"#ef4444\">F = ma</text>\n  <text x=\"400\" y=\"210\" text-anchor=\"middle\" font-size=\"12\" fill=\"#4b5563\">Force equals mass</text>\n  <text x=\"400\" y=\"230\" text-anchor=\"middle\" font-size=\"12\" fill=\"#4b5563\">times acceleration</text>\n\n  <!-- Third Law box -->\n  <rect x=\"530\" y=\"100\" width=\"220\" height=\"150\" rx=\"10\" fill=\"#10b981\" fill-opacity=\"0.1\" stroke=\"#10b981\" stroke-width=\"2\"/>\n  <text x=\"640\" y=\"130\" text-anchor=\"middle\" font-size=\"16\" font-weight=\"bold\" fill=\"#10b981\">Third Law</text>\n  <text x=\"640\" y=\"160\" text-anchor=\"middle\" font-size=\"14\" fill=\"#4b5563\">Action-Reaction</text>\n  <text x=\"640\" y=\"190\" text-anchor=\"middle\" font-size=\"12\" fill=\"#4b5563\">Every action has an</text>\n  <text x=\"640\" y=\"210\" text-anchor=\"middle\" font-size=\"12\" fill=\"#4b5563\">equal and opposite</text>\n  <text x=\"640\" y=\"230\" text-anchor=\"middle\" font-size=\"12\" fill=\"#4b5563\">reaction</text>\n\n  <!-- Illustration -->\n  <rect x=\"300\" y=\"350\" width=\"100\" height=\"60\" fill=\"#fbbf24\" stroke=\"#f59e0b\" stroke-width=\"2\"/>\n  <line x1=\"350\" y1=\"380\" x2=\"500\" y2=\"380\" stroke=\"#ef4444\" stroke-width=\"3\" marker-end=\"url(#arrow4)\"/>\n  <text x=\"450\" y=\"360\" font-size=\"14\" fill=\"#ef4444\">F</text>\n\n  <defs>\n    <marker id=\"arrow4\" markerWidth=\"10\" markerHeight=\"10\" refX=\"9\" refY=\"3\" orient=\"auto\">\n      <path d=\"M0,0 L0,6 L9,3 z\" fill=\"#ef4444\"/>\n    </marker>\n  </defs>\n</svg>")

/-- Translation of `generate_work_energy_svg` from `gemini_image.py` (literal SVG body). -/
def generate_work_energy_svg (title summary : String) : String :=
  svgXmlHeader ++ ("<svg width=\"800\" height=\"600\" xmlns=\"http://www.w3.org/2000/svg\">\n  <rect width=\"800\" height=\"600\" fill=\"#f8f9fa\"/>\n\n  <text x=\"400\" y=\"50\" text-anchor=\"middle\" font-size=\"28\" font-weight=\"bold\" fill=\"#1f2937\">\n    " ++ title ++ "\n  </text>\n\n  <!-- Work diagram -->\n  <rect x=\"150\" y=\"280\" width=\"80\" height=\"80\" fill=\"#3b82f6\" fill-opacity=\"0.7\"/>\n  <line x1=\"230\" y1=\"320\" x2=\"380\" y2=\"320\" stroke=\"#ef4444\" stroke-width=\"3\" marker-end=\"url(#arrow5)\"/>\n  <text x=\"305\" y=\"300\" font-size=\"16\" fill=\"#ef4444\">F</text>\n\n  <!-- Displacement arrow -->\n  <line x1=\"150\" y1=\"400\" x2=\"550\" y2=\"400\" stroke=\"#10b981\" stroke-width=\"2\" marker-end=\"url(#arrow5)\"/>\n  <text x=\"350\" y=\"430\" font-size=\"16\" fill=\"#10b981\">d (displacement)</text>\n\n  <!-- Formula -->\n  <text x=\"400\" y=\"200\" text-anchor=\"middle\" font-size=\"24\" fill=\"#1f2937\">\n    W = F · d = |F||d|cos(θ)\n  </text>\n\n  <!-- Energy equation -->\n  <text x=\"550\" y=\"320\" font-size=\"20\" fill=\"#3b82f6\">KE = ½mv²</text>\n  <text x=\"550\" y=\"360\" font-size=\"20\" fill=\"#ef4444\">PE = mgh</text>\n\n  <!-- Work-energy theorem -->\n  <text x=\"400\" y=\"520\" text-anchor=\"middle\" font-size=\"18\" fill=\"#4b5563\">\n    Work-Energy Theorem: W = ΔKE\n  </text>\n\n  <defs>\n    <marker id=\"arrow5\" markerWidth=\"10\" markerHeight=\"10\" refX=\"9\" refY=\"3\" orient=\"auto\">\n      <path d=\"M0,0 L0,6 L9,3 z\" fill=\"#ef4444\"/>\n    </marker>\n  </defs>\n</svg>")

/-- Translation of `generate_rotation_svg` from `gemini_image.py` (literal SVG body). -/
def generate_rotation_svg (title summary : String) : String :=
  svgXmlHeader ++ ("<svg width=\"800\" height=\"600\" xmlns=\"http://www.w3.org/2000/svg\">\n  <rect width=\"800\" height=\"600\" fill=\"#f8f9fa\"/>\n\n  <text x=\"400\" y=\"50\" text-anchor=\"middle\" font-size=\"28\" font-weight=\"bold\" fill=\"#1f2937\">\n    " ++ title ++ "\n  </text>\n\n  <!-- Rotating disk -->\n  <circle cx=\"300\" cy=\"300\" r=\"120\" fill=\"#3b82f6\" fill-opacity=\"0.2\" stroke=\"#3b82f6\" stroke-width=\"3\"/>\n  <circle cx=\"300\" cy=\"300\" r=\"5\" fill=\"#1f2937\"/>\n\n  <!-- Rotation arrow -->\n  <path d=\"M 300 180 A 120 120 0 0 1 420 300\" fill=\"none\" stroke=\"#ef4444\" stroke-width=\"3\" marker-end=\"url(#arrow6)\"/>\n  <text x=\"370\" y=\"200\" font-size=\"16\" fill=\"#ef4444\">ω</text>\n\n  <!-- Radius line -->\n  <line x1=\"300\" y1=\"300\" x2=\"420\" y2=\"300\" stroke=\"#10b981\" stroke-width=\"2\"/>\n  <text x=\"360\" y=\"280\" font-size=\"14\" fill=\"#10b981\">r</text>\n\n  <!-- Formulas -->\n  <text x=\"600\" y=\"200\" font-size=\"18\" fill=\"#1f2937\">θ = ωt</text>\n  <text x=\"600\" y=\"240\" font-size=\"18\" fill=\"#1f2937\">v = ωr</text>\n  <text x=\"600\" y=\"280\" font-size=\"18\" fill=\"#1f2937\">α = dω/dt</text>\n  <text x=\"600\" y=\"320\" font-size=\"18\" fill=\"#1f2937\">τ = Iα</text>\n  <text x=\"600\" y=\"360\" font-size=\"18\" fill=\"#1f2937\">L = Iω</text>\n\n  <!-- Labels -->\n  <text x=\"600\" y=\"450\" font-size=\"14\" fill=\"#4b5563\">ω = angular velocity</text>\n  <text x=\"600\" y=\"480\" font-size=\"14\" fill=\"#4b5563\">α = angular acceleration</text>\n  <text x=\"600\" y=\"510\" font-size=\"14\" fill=\"#4b5563\">τ = torque, I = moment of inertia</text>\n\n  <defs>\n    <marker id=\"arrow6\" markerWidth=\"10\" markerHeight=\"10\" refX=\"9\" refY=\"3\" orient=\"auto\">\n      <path d=\"M0,0 L0,6 L9,3 z\" fill=\"#ef4444\"/>\n    </marker>\n  </defs>\n</svg>")

/-- Translation of `generate_hypothesis_svg` from `gemini_image.py` (literal SVG body). -/
def generate_hypothesis_svg (title summary : String) : String :=
  svgXmlHeader ++ ("<svg width=\"800\" height=\"600\" xmlns=\"http://www.w3.org/2000/svg\">\n  <rect width=\"800\" height=\"600\" fill=\"#f8f9fa\"/>\n\n  <text x=\"400\" y=\"50\" text-anchor=\"middle\" font-size=\"28\" font-weight=\"bold\" fill=\"#1f2937\">\n    " ++ title ++ "\n  </text>\n\n  <!-- Normal distribution curve -->\n  <path d=\"M 100 400 Q 200 400, 250 380 Q 300 300, 400 150 Q 500 300, 550 380 Q 600 400, 700 400\" fill=\"none\" stroke=\"#3b82f6\" stroke-width=\"3\"/>\n\n  <!-- Rejection regions -->\n  <path d=\"M 100 400 Q 120 400, 140 395 L 140 400 Z\" fill=\"#ef4444\" fill-opacity=\"0.5\"/>\n  <path d=\"M 660 400 Q 680 400, 700 400 L 660 395 Z\" fill=\"#ef4444\" fill-opacity=\"0.5\"/>\n\n  <!-- Critical values -->\n  <line x1=\"140\" y1=\"150\" x2=\"140\" y2=\"400\" stroke=\"#ef4444\" stroke-width=\"2\" stroke-dasharray=\"5,5\"/>\n  <text x=\"140\" y=\"430\" text-anchor=\"middle\" font-size=\"14\" fill=\"#ef4444\">-z_α/2</text>\n\n  <line x1=\"660\" y1=\"150\" x2=\"660\" y2=\"400\" stroke=\"#ef4444\" stroke-width=\"2\" stroke-dasharray=\"5,5\"/>\n  <text x=\"660\" y=\"430\" text-anchor=\"middle\" font-size=\"14\" fill=\"#ef4444\">z_α/2</text>\n\n  <!-- Labels -->\n  <text x=\"400\" y=\"200\" text-anchor=\"middle\" font-size=\"16\" fill=\"#10b981\">Fail to reject H₀</text>\n  <text x=\"100\" y=\"350\" font-size=\"12\" fill=\"#ef4444\">Reject H₀</text>\n  <text x=\"680\" y=\"350\" font-size=\"12\" fill=\"#ef4444\">Reject H₀</text>\n\n  <!-- Hypotheses -->\n  <text x=\"400\" y=\"500\" text-anchor=\"middle\" font-size=\"16\" fill=\"#1f2937\">H₀: μ = μ₀ (Null Hypothesis)</text>\n  <text x=\"400\" y=\"530\" text-anchor=\"middle\" font-size=\"16\" fill=\"#1f2937\">H₁: μ ≠ μ₀ (Alternative)</text>\n\n  <!-- Alpha label -->\n  <text x=\"400\" y=\"560\" text-anchor=\"middle\" font-size=\"14\" fill=\"#4b5563\">α = significance level (typically 0.05)</text>\n</svg>")

/-- Translation of `generate_confidence_interval_svg` from `gemini_image.py` (literal SVG body). -/
def generate_confidence_interval_svg (title summary : String) : String :=
  svgXmlHeader ++ ("<svg width=\"800\" height=\"600\" xmlns=\"http://www.w3.org/2000/svg\">\n  <rect width=\"800\" height=\"600\" fill=\"#f8f9fa\"/>\n\n  <text x=\"400\" y=\"50\" text-anchor=\"middle\" font-size=\"28\" font-weight=\"bold\" fill=\"#1f2937\">\n    " ++ title ++ "\n  </text>\n\n  <!-- Number line -->\n  <line x1=\"100\" y1=\"250\" x2=\"700\" y2=\"250\" stroke=\"#6b7280\" stroke-width=\"2\"/>\n\n  <!-- True parameter (mu) -->\n  <line x1=\"400\" y1=\"230\" x2=\"400\" y2=\"270\" stroke=\"#10b981\" stroke-width=\"3\"/>\n  <text x=\"400\" y=\"295\" text-anchor=\"middle\" font-size=\"18\" fill=\"#10b981\">μ (true)</text>\n\n  <!-- Sample confidence intervals -->\n  <line x1=\"320\" y1=\"180\" x2=\"480\" y2=\"180\" stroke=\"#3b82f6\" stroke-width=\"3\"/>\n  <circle cx=\"400\" cy=\"180\" r=\"4\" fill=\"#3b82f6\"/>\n  <text x=\"520\" y=\"185\" font-size=\"12\" fill=\"#3b82f6\">✓ Contains μ</text>\n\n  <line x1=\"280\" y1=\"150\" x2=\"440\" y2=\"150\" stroke=\"#3b82f6\" stroke-width=\"3\"/>\n  <circle cx=\"360\" cy=\"150\" r=\"4\" fill=\"#3b82f6\"/>\n  <text x=\"480\" y=\"155\" font-size=\"12\" fill=\"#3b82f6\">✓ Contains μ</text>\n\n  <line x1=\"450\" y1=\"120\" x2=\"610\" y2=\"120\" stroke=\"#ef4444\" stroke-width=\"3\"/>\n  <circle cx=\"530\" cy=\"120\" r=\"4\" fill=\"#ef4444\"/>\n  <text x=\"650\" y=\"125\" font-size=\"12\" fill=\"#ef4444\">✗ Misses μ</text>\n\n  <!-- Formula -->\n  <text x=\"400\" y=\"380\" text-anchor=\"middle\" font-size=\"20\" fill=\"#1f2937\">\n    CI = x̄ ± z* × (σ/√n)\n  </text>\n\n  <!-- Interpretation -->\n  <text x=\"400\" y=\"450\" text-anchor=\"middle\" font-size=\"14\" fill=\"#4b5563\">\n    95% CI: 95 out of 100 intervals will contain the true parameter\n  </text>\n\n  <text x=\"400\" y=\"520\" text-anchor=\"middle\" font-size=\"16\" fill=\"#1f2937\">\n    Confidence Level (1 - α) = 95%\n  </text>\n</svg>")

/-- Translation of `generate_statistics_concept_svg` from `gemini_image.py` (literal SVG body). -/
def generate_statistics_concept_svg (title summary : String) : String :=
  svgXmlHeader ++ ("<svg width=\"800\" height=\"600\" xmlns=\"http://www.w3.org/2000/svg\">\n  <rect width=\"800\" height=\"600\" fill=\"#f8f9fa\"/>\n\n  <text x=\"400\" y=\"50\" text-anchor=\"middle\" font-size=\"28\" font-weight=\"bold\" fill=\"#1f2937\">\n    " ++ title ++ "\n  </text>\n\n  <!-- Data points visualization -->\n  <circle cx=\"200\" cy=\"300\" r=\"10\" fill=\"#3b82f6\"/>\n  <circle cx=\"280\" cy=\"280\" r=\"10\" fill=\"#3b82f6\"/>\n  <circle cx=\"340\" cy=\"320\" r=\"10\" fill=\"#3b82f6\"/>\n  <circle cx=\"420\" cy=\"290\" r=\"10\" fill=\"#3b82f6\"/>\n  <circle cx=\"500\" cy=\"310\" r=\"10\" fill=\"#3b82f6\"/>\n  <circle cx=\"580\" cy=\"270\" r=\"10\" fill=\"#3b82f6\"/>\n\n  <!-- Mean line -->\n  <line x1=\"150\" y1=\"295\" x2=\"630\" y2=\"295\" stroke=\"#ef4444\" stroke-width=\"2\" stroke-dasharray=\"5,5\"/>\n  <text x=\"650\" y=\"300\" font-size=\"14\" fill=\"#ef4444\">μ</text>\n\n  <!-- Formulas box -->\n  <rect x=\"200\" y=\"400\" width=\"400\" height=\"150\" rx=\"10\" fill=\"#f8f9fa\" stroke=\"#6b7280\" stroke-width=\"2\"/>\n\n  <text x=\"400\" y=\"440\" text-anchor=\"middle\" font-size=\"18\" fill=\"#3b82f6\">E[X] = Σ xᵢP(xᵢ)</text>\n  <text x=\"400\" y=\"480\" text-anchor=\"middle\" font-size=\"18\" fill=\"#ef4444\">Var(X) = E[(X - μ)²]</text>\n  <text x=\"400\" y=\"520\" text-anchor=\"middle\" font-size=\"18\" fill=\"#10b981\">σ = √Var(X)</text>\n</svg>")

/-- Translation of `generate_venn_diagram_svg` from `gemini_image.py` (literal SVG body). -/
def generate_venn_diagram_svg (title summary : String) : String :=
  svgXmlHeader ++ ("<svg width=\"800\" height=\"600\" xmlns=\"http://www.w3.org/2000/svg\">\n  <rect width=\"800\" height=\"600\" fill=\"#f8f9fa\"/>\n\n  <text x=\"400\" y=\"50\" text-anchor=\"middle\" font-size=\"28\" font-weight=\"bold\" fill=\"#1f2937\">\n    " ++ title ++ "\n  </text>\n\n  <!-- Universal set rectangle -->\n  <rect x=\"100\" y=\"100\" width=\"600\" height=\"400\" fill=\"none\" stroke=\"#6b7280\" stroke-width=\"2\"/>\n  <text x=\"680\" y=\"120\" font-size=\"14\" fill=\"#6b7280\">U</text>\n\n  <!-- Set A -->\n  <circle cx=\"300\" cy=\"300\" r=\"120\" fill=\"#3b82f6\" fill-opacity=\"0.3\" stroke=\"#3b82f6\" stroke-width=\"3\"/>\n  <text x=\"220\" y=\"260\" font-size=\"24\" fill=\"#3b82f6\">A</text>\n\n  <!-- Set B -->\n  <circle cx=\"480\" cy=\"300\" r=\"120\" fill=\"#ef4444\" fill-opacity=\"0.3\" stroke=\"#ef4444\" stroke-width=\"3\"/>\n  <text x=\"540\" y=\"260\" font-size=\"24\" fill=\"#ef4444\">B</text>\n\n  <!-- Intersection label -->\n  <text x=\"390\" y=\"305\" text-anchor=\"middle\" font-size=\"16\" fill=\"#10b981\">A ∩ B</text>\n\n  <!-- Operations -->\n  <text x=\"200\" y=\"530\" font-size=\"16\" fill=\"#3b82f6\">A ∪ B (Union)</text>\n  <text x=\"400\" y=\"530\" font-size=\"16\" fill=\"#10b981\">A ∩ B (Intersection)</text>\n  <text x=\"600\" y=\"530\" font-size=\"16\" fill=\"#ef4444\">A\x27 (Complement)</text>\n\n  <!-- Example elements -->\n  <text x=\"220\" y=\"350\" font-size=\"12\" fill=\"#4b5563\">1, 2, 3</text>\n  <text x=\"520\" y=\"350\" font-size=\"12\" fill=\"#4b5563\">5, 6, 7</text>\n  <text x=\"380\" y=\"330\" font-size=\"12\" fill=\"#4b5563\">4</text>\n</svg>")

/-- Translation of `generate_combinatorics_svg` from `gemini_image.py` (literal SVG body). -/
def generate_combinatorics_svg (title summary : String) : String :=
  svgXmlHeader ++ ("<svg width=\"800\" height=\"600\" xmlns=\"http://www.w3.org/2000/svg\">\n  <rect width=\"800\" height=\"600\" fill=\"#f8f9fa\"/>\n\n  <text x=\"400\" y=\"50\" text-anchor=\"middle\" font-size=\"28\" font-weight=\"bold\" fill=\"#1f2937\">\n    " ++ title ++ "\n  </text>\n\n  <!-- Permutation visualization -->\n  <rect x=\"50\" y=\"120\" width=\"340\" height=\"200\" rx=\"10\" fill=\"#3b82f6\" fill-opacity=\"0.1\" stroke=\"#3b82f6\" stroke-width=\"2\"/>\n  <text x=\"220\" y=\"160\" text-anchor=\"middle\" font-size=\"18\" font-weight=\"bold\" fill=\"#3b82f6\">Permutations</text>\n  <text x=\"220\" y=\"200\" text-anchor=\"middle\" font-size=\"14\" fill=\"#4b5563\">Order matters</text>\n\n  <!-- Permutation boxes -->\n  <rect x=\"100\" y=\"230\" width=\"40\" height=\"40\" fill=\"#3b82f6\" fill-opacity=\"0.5\" stroke=\"#3b82f6\"/>\n  <text x=\"120\" y=\"258\" text-anchor=\"middle\" font-size=\"16\" fill=\"white\">A</text>\n  <rect x=\"160\" y=\"230\" width=\"40\" height=\"40\" fill=\"#3b82f6\" fill-opacity=\"0.5\" stroke=\"#3b82f6\"/>\n  <text x=\"180\" y=\"258\" text-anchor=\"middle\" font-size=\"16\" fill=\"white\">B</text>\n  <rect x=\"220\" y=\"230\" width=\"40\" height=\"40\" fill=\"#3b82f6\" fill-opacity=\"0.5\" stroke=\"#3b82f6\"/>\n  <text x=\"240\" y=\"258\" text-anchor=\"middle\" font-size=\"16\" fill=\"white\">C</text>\n  <text x=\"300\" y=\"258\" font-size=\"14\" fill=\"#4b5563\">≠</text>\n  <rect x=\"320\" y=\"230\" width=\"40\" height=\"40\" fill=\"#3b82f6\" fill-opacity=\"0.5\" stroke=\"#3b82f6\"/>\n  <text x=\"340\" y=\"258\" text-anchor=\"middle\" font-size=\"16\" fill=\"white\">B</text>\n\n  <!-- Combination visualization -->\n  <rect x=\"410\" y=\"120\" width=\"340\" height=\"200\" rx=\"10\" fill=\"#ef4444\" fill-opacity=\"0.1\" stroke=\"#ef4444\" stroke-width=\"2\"/>\n  <text x=\"580\" y=\"160\" text-anchor=\"middle\" font-size=\"18\" font-weight=\"bold\" fill=\"#ef4444\">Combinations</text>\n  <text x=\"580\" y=\"200\" text-anchor=\"middle\" font-size=\"14\" fill=\"#4b5563\">Order doesn\x27t matter</text>\n\n  <!-- Combination circles -->\n  <circle cx=\"480\" cy=\"250\" r=\"20\" fill=\"#ef4444\" fill-opacity=\"0.5\" stroke=\"#ef4444\"/>\n  <circle cx=\"540\" cy=\"250\" r=\"20\" fill=\"#ef4444\" fill-opacity=\"0.5\" stroke=\"#ef4444\"/>\n  <circle cx=\"600\" cy=\"250\" r=\"20\" fill=\"#ef4444\" fill-opacity=\"0.5\" stroke=\"#ef4444\"/>\n  <text x=\"650\" y=\"255\" font-size=\"14\" fill=\"#4b5563\">=</text>\n  <circle cx=\"700\" cy=\"250\" r=\"20\" fill=\"#ef4444\" fill-opacity=\"0.5\" stroke=\"#ef4444\"/>\n\n  <!-- Formulas -->\n  <text x=\"200\" y=\"400\" text-anchor=\"middle\" font-size=\"20\" fill=\"#3b82f6\">P(n,r) = n!/(n-r)!</text>\n  <text x=\"580\" y=\"400\" text-anchor=\"middle\" font-size=\"20\" fill=\"#ef4444\">C(n,r) = n!/[r!(n-r)!]</text>\n\n  <!-- Example -->\n  <text x=\"400\" y=\"500\" text-anchor=\"middle\" font-size=\"16\" fill=\"#4b5563\">\n    Example: n=5, r=3\n  </text>\n  <text x=\"200\" y=\"540\" text-anchor=\"middle\" font-size=\"14\" fill=\"#3b82f6\">P(5,3) = 60</text>\n  <text x=\"580\" y=\"540\" text-anchor=\"middle\" font-size=\"14\" fill=\"#ef4444\">C(5,3) = 10</text>\n</svg>")

/-- Translation of `generate_proof_svg` from `gemini_image.py` (literal SVG body). -/
def generate_proof_svg (title summary : String) : String :=
  svgXmlHeader ++ ("<svg width=\"800\" height=\"600\" xmlns=\"http://www.w3.org/2000/svg\">\n  <rect width=\"800\" height=\"600\" fill=\"#f8f9fa\"/>\n\n  <text x=\"400\" y=\"50\" text-anchor=\"middle\" font-size=\"28\" font-weight=\"bold\" fill=\"#1f2937\">\n    " ++ title ++ "\n  </text>\n\n  <!-- Proof structure -->\n  <rect x=\"100\" y=\"100\" width=\"600\" height=\"450\" rx=\"10\" fill=\"none\" stroke=\"#6b7280\" stroke-width=\"2\"/>\n\n  <!-- Given -->\n  <text x=\"130\" y=\"140\" font-size=\"18\" font-weight=\"bold\" fill=\"#3b82f6\">Given:</text>\n  <text x=\"130\" y=\"170\" font-size=\"16\" fill=\"#4b5563\">P is true (premise)</text>\n\n  <!-- Arrow -->\n  <line x1=\"400\" y1=\"200\" x2=\"400\" y2=\"250\" stroke=\"#6b7280\" stroke-width=\"2\" marker-end=\"url(#arrow7)\"/>\n\n  <!-- Steps -->\n  <text x=\"130\" y=\"290\" font-size=\"18\" font-weight=\"bold\" fill=\"#10b981\">Steps:</text>\n  <text x=\"130\" y=\"320\" font-size=\"16\" fill=\"#4b5563\">1. If P, then Q (given)</text>\n  <text x=\"130\" y=\"350\" font-size=\"16\" fill=\"#4b5563\">2. P is true (premise)</text>\n  <text x=\"130\" y=\"380\" font-size=\"16\" fill=\"#4b5563\">3. Therefore Q (modus ponens)</text>\n\n  <!-- Arrow -->\n  <line x1=\"400\" y1=\"410\" x2=\"400\" y2=\"460\" stroke=\"#6b7280\" stroke-width=\"2\" marker-end=\"url(#arrow7)\"/>\n\n  <!-- Conclusion -->\n  <text x=\"130\" y=\"500\" font-size=\"18\" font-weight=\"bold\" fill=\"#ef4444\">Conclusion:</text>\n  <text x=\"130\" y=\"530\" font-size=\"16\" fill=\"#4b5563\">Q.E.D. ∎</text>\n\n  <!-- Proof types -->\n  <text x=\"550\" y=\"140\" font-size=\"14\" fill=\"#6b7280\">Proof Types:</text>\n  <text x=\"550\" y=\"170\" font-size=\"12\" fill=\"#4b5563\">• Direct</text>\n  <text x=\"550\" y=\"195\" font-size=\"12\" fill=\"#4b5563\">• Contradiction</text>\n  <text x=\"550\" y=\"220\" font-size=\"12\" fill=\"#4b5563\">• Induction</text>\n  <text x=\"550\" y=\"245\" font-size=\"12\" fill=\"#4b5563\">• Contrapositive</text>\n\n  <defs>\n    <marker id=\"arrow7\" markerWidth=\"10\" markerHeight=\"10\" refX=\"9\" refY=\"3\" orient=\"auto\">\n      <path d=\"M0,0 L0,6 L9,3 z\" fill=\"#6b7280\"/>\n    </marker>\n  </defs>\n</svg>")
/-- The if-chain of `generate_svg_diagram` over the already-normalized
`topic_lower`. -/
def generate_svg_diagram_go (topic_lower title summary : String) : String :=
  if topic_lower ∈ ["limits", "continuity"] then
    generate_limit_svg title summary
  else if topic_lower ∈ ["implicit_differentiation"] then
    generate_implicit_svg title summary
  else if topic_lower ∈ ["related_rates"] then
    generate_related_rates_svg title summary
  else if topic_lower ∈ ["fundamental_theorem", "sequences", "lhopitals_rule"] then
    generate_calculus_concept_svg title summary
  else if topic_lower ∈ ["loss_functions"] then
    generate_loss_function_svg title summary
  else if topic_lower ∈ ["regularization"] then
    generate_regularization_svg title summary
  else if topic_lower ∈ ["determinants"] then
    generate_determinant_svg title summary
  else if topic_lower ∈ ["inverse_matrix"] then
    generate_matrix_inverse_svg title summary
  else if topic_lower ∈ ["vector_spaces"] then
    generate_vector_space_svg title summary
  else if topic_lower ∈ ["newtons_laws"] then
    generate_newtons_laws_svg title summary
  else if topic_lower ∈ ["work"] then
    generate_work_energy_svg title summary
  else if topic_lower ∈ ["rotation"] then
    generate_rotation_svg title summary
  else if topic_lower ∈ ["hypothesis_testing"] then
    generate_hypothesis_svg title summary
  else if topic_lower ∈ ["confidence_intervals"] then
    generate_confidence_interval_svg title summary
  else if topic_lower ∈ ["expected_value", "variance"] then
    generate_statistics_concept_svg title summary
  else if topic_lower ∈ ["sets", "logic"] then
    generate_venn_diagram_svg title summary
  else if topic_lower ∈ ["combinatorics", "permutations", "combinations"] then
    generate_combinatorics_svg title summary
  else if topic_lower ∈ ["proofs"] then
    generate_proof_svg title summary
  else
    generate_generic_svg title summary

/-- Translation of `generate_svg_diagram` from `gemini_image.py`: normalize
the topic (`topic_lower = topic.lower().replace(" ", "_")`), then dispatch
over the hand-authored SVG templates, with the generic diagram as the default
branch. -/
def generate_svg_diagram (topic title summary : String) : String :=
  generate_svg_diagram_go (pyReplace1 (pyLower topic) ' ' '_') title summary

/-- What a successful `generate_gemini_image` run produces: the SVG file it
writes (name and content) and the URL path it returns. -/
structure GeminiResult where
  fileName : String
  content : String
  url : String

/-- Translation of `generate_gemini_image` from `gemini_image.py`. The
`GOOGLE_API_KEY` environment variable is passed in explicitly; `none` or the
empty string are falsy, making the function raise before doing anything else.
With a configured key the function makes no external call: it builds the SVG
via `generate_svg_diagram`, writes it under a name derived from the job id and
topic, and returns the URL path. -/
def generate_gemini_image (apiKey : Option String)
    (topic lesson_title summary job_id : String) : Except String GeminiResult :=
  match apiKey with
  | none => .error "GOOGLE_API_KEY not configured"
  | some k =>
    if k = "" then .error "GOOGLE_API_KEY not configured"
    else
      let svg_content := generate_svg_diagram topic lesson_title summary
      let name := job_id ++ "_" ++ (pyReplace1 topic ' ' '_') ++ ".svg"
      .ok { fileName := name, content := svg_content, url := "/static/images/" ++ name }

/-- The Manim scene template selected by `generate_manim_code_for_topic` in
`manim_renderer.py`. The literal Python scene-code bodies are presentation
data; each template contains exactly one scene class, whose name this tag
determines. -/
inductive ManimTemplate where
  | integral
  | derivative
  | limit
  | gradient_descent
  | matrix_transform
  | physics_dynamics
  | probability
  | graph_traversal
  | generic
deriving DecidableEq, Repr

/-- Translation of the dispatch in `generate_manim_code_for_topic`
(`manim_renderer.py`): which scene template's code is generated for a topic.
`lesson_title` is only interpolated into the code text. -/
def generate_manim_code_for_topic (topic lesson_title : String) : ManimTemplate :=
  let topic_lower := pyReplace1 (pyLower topic) ' ' '_'
  if topic_lower ∈ ["integrals", "definite_integrals", "integration_by_parts", "substitution"] then
    .integral
  else if topic_lower ∈ ["derivatives"] then
    .derivative
  else if topic_lower ∈ ["limits"] then
    .limit
  else if topic_lower ∈ ["gradient_descent", "backpropagation"] then
    .gradient_descent
  else if topic_lower ∈ ["linear_transformations", "matrices", "matrix_multiplication"] then
    .matrix_transform
  else if topic_lower ∈ ["forces", "momentum", "energy", "mechanics"] then
    .physics_dynamics
  else if topic_lower ∈ ["bayes_theorem", "probability"] then
    .probability
  else if topic_lower ∈ ["paths", "cycles", "connectivity", "recursion"] then
    .graph_traversal
  else
    .generic

/-- The scene class name `render_manim_video` detects by substring search in
the generated code (each template contains exactly its own class name). -/
def ManimTemplate.sceneClass : ManimTemplate → String
  | .integral => "IntegralVisualization"
  | .derivative => "DerivativeVisualization"
  | .limit => "LimitVisualization"
  | .gradient_descent => "GradientDescentVisualization"
  | .matrix_transform => "MatrixTransformVisualization"
  | .physics_dynamics => "PhysicsDynamicsVisualization"
  | .probability => "ProbabilityVisualization"
  | .graph_traversal => "GraphTraversalVisualization"
  | .generic => "GenericVisualization"

/-- Outcome of one `subprocess.run` invocation of the external `manim`
toolchain: it either completes (with an exit code and captured output) or
exceeds the wall-clock timeout. -/
inductive SubprocessOutcome where
  | completed (returncode : Int) (stdout stderr : String)
  | timedOut
deriving DecidableEq, Repr

/-- Environment of one render attempt: the subprocess outcome and the set of
quality-tier subdirectories in which the toolchain left an output file. -/
structure RenderEnv where
  subprocess : SubprocessOutcome
  outputQualities : List String
deriving DecidableEq, Repr

/-- What a `render_manim_video` call leaves behind: the returned URL or the
propagated exception message, and whether the temporary script file and the
temporary media directory still exist afterwards. -/
structure RenderOutcome where
  result : Except String String
  tempScriptLeft : Bool
  tempDirLeft : Bool
deriving Repr

/-- The quality-tier subdirectories `render_manim_video` probes for the output
file (the primary `480p15` path first, then the alternates). -/
def renderQualityProbes : List String :=
  ["480p15", "720p30", "1080p60"]

/-- Translation of `render_manim_video` from `manim_renderer.py`. The
temporary script is created up front (`delete=False`); the media directory is
a `TemporaryDirectory` context; the `finally` block unlinks the script. On
nonzero exit, timeout, or missing output file an exception propagates; in
every branch both temporary resources are removed before the function
returns or the exception escapes. -/
def render_manim_video (env : RenderEnv) (topic lesson_title job_id : String) :
    RenderOutcome :=
  let output_name := job_id ++ "_" ++ (pyReplace1 topic ' ' '_')
  let scene_class := (generate_manim_code_for_topic topic lesson_title).sceneClass
  match env.subprocess with
  | .timedOut =>
    -- `subprocess.TimeoutExpired` propagates out of the function; its message
    -- text is produced by the Python library and is modelled by this stand-in.
    { result := .error ("Command manim " ++ scene_class ++ " timed out after 60 seconds"),
      tempScriptLeft := false, tempDirLeft := false }
  | .completed returncode stdout stderr =>
    if returncode ≠ 0 then
      { result := .error ("Manim rendering failed: " ++ (if stderr ≠ "" then stderr else stdout)),
        tempScriptLeft := false, tempDirLeft := false }
    else if renderQualityProbes.any (fun q => env.outputQualities.contains q) then
      { result := .ok ("/static/videos/" ++ output_name ++ ".mp4"),
        tempScriptLeft := false, tempDirLeft := false }
    else
      -- the real message interpolates the temp-dir path; the stand-in keeps
      -- the stable part of the text
      { result := .error ("Rendered video not found at expected path: " ++ scene_class ++ ".mp4"),
        tempScriptLeft := false, tempDirLeft := false }

/-- Environment of one `generate_manim_video` call (`manim_generator.py`):
whether the per-job output file already exists (cache hit), the subprocess
outcome, and where the toolchain left output files. -/
structure GenVideoEnv where
  cachedExists : Bool
  subprocess : SubprocessOutcome
  outputQualities : List String
deriving DecidableEq, Repr

/-- What a `generate_manim_video` call produces: the `(success, result)` pair
the function returns, whether a temporary workspace was created at all, and
whether it still exists afterwards. -/
structure GenVideoOutcome where
  success : Bool
  result : String
  tempDirCreated : Bool
  tempDirLeft : Bool
deriving Repr

/-- Translation of `generate_manim_video` from `manim_generator.py`: cache
check first (before any workspace is made), then `mkdtemp`, subprocess run,
output probing, and an unconditional `finally: rmtree`. Returns
`(success, url-or-error)` instead of raising. -/
def generate_manim_video (env : GenVideoEnv) (topic title summary job_id : String) :
    GenVideoOutcome :=
  let video_id := job_id ++ "_" ++ pyReplace1 (pyReplace1 topic ' ' '_') '-' '_'
  if env.cachedExists then
    { success := true, result := "/static/videos/" ++ video_id ++ ".mp4",
      tempDirCreated := false, tempDirLeft := false }
  else
    match env.subprocess with
    | .timedOut =>
      { success := false, result := "Manim rendering timed out",
        tempDirCreated := true, tempDirLeft := false }
    | .completed returncode stdout stderr =>
      if returncode ≠ 0 then
        { success := false, result := "Manim rendering failed: " ++ (pyTake stderr 200),
          tempDirCreated := true, tempDirLeft := false }
      else if renderQualityProbes.any (fun q => env.outputQualities.contains q) then
        { success := true, result := "/static/videos/" ++ video_id ++ ".mp4",
          tempDirCreated := true, tempDirLeft := false }
      else
        { success := false, result := "No video file generated",
          tempDirCreated := true, tempDirLeft := false }

/-- The pre-generated video category table `PREGENERATED_VIDEO_CATEGORIES` of
`manim_generator.py`: category name, substring keywords, cached filename, in
declaration order. -/
def PREGENERATED_VIDEO_CATEGORIES : List (String × List String × String) :=
  [("calculus",
    (["calculus", "derivative", "integral", "integration", "limit", "differentiat",
      "function", "curve", "tangent", "slope", "math", "manim"],
     "calculus_animation.mp4")),
   ("chemistry",
    (["chemistry", "chemical", "atom", "molecule", "element", "periodic", "bond",
      "reaction", "compound", "electron"],
     "chemistry_animation.mp4")),
   ("social",
    (["social", "society", "culture", "psychology", "sociology", "behavior",
      "community", "network", "interaction", "human"],
     "social_animation.mp4"))]

/-- Python's `needle in haystack` substring test on strings. -/
def containsSubstr (hay needle : String) : Bool :=
  decide (needle.toList <:+: hay.toList)

/-- Loop body of `find_cached_video`: scan categories in order; on the first
keyword match, return the URL if the pre-generated file exists, otherwise keep
scanning. -/
def find_cached_video_go (videosDirFiles : List String) (topic_lower : String) :
    List (String × List String × String) → Option String
  | [] => none
  | (_, keywords, filename) :: rest =>
    if keywords.any (fun kw => containsSubstr topic_lower kw) then
      if videosDirFiles.contains filename then
        some ("/static/videos/" ++ filename)
      else
        find_cached_video_go videosDirFiles topic_lower rest
    else
      find_cached_video_go videosDirFiles topic_lower rest

/-- Translation of `find_cached_video` from `manim_generator.py`: keyword-
category lookup of a pre-generated video for a topic. `videosDirFiles` is the
set of filenames present in the static videos directory. -/
def find_cached_video (videosDirFiles : List String) (topic : String) : Option String :=
  find_cached_video_go videosDirFiles (pyLower topic) PREGENERATED_VIDEO_CATEGORIES

/-- The result dict `generate_visualization` returns: a `type` tag, and either
a Three.js `spec` or a `url` (the other field is `None`). -/
structure VizResult where
  type : VizType
  spec : Option ThreeSpec
  url : Option String

/-- A `Job` record of `job_manager.py`. `result` is populated by
`complete_job`, `error` by `fail_job`; timestamps are `Nat` clock readings. -/
structure Job where
  id : String
  status : JobStatus
  stage : String := ""
  result : Option VizResult := none
  error : Option String := none
  created_at : Nat
  updated_at : Nat

/-- The `JobManager.jobs` dict: an id-keyed association list. -/
abbrev Jobs := List (String × Job)

/-- Translation of `JobManager.get_job`: `self.jobs.get(job_id)`. -/
def get_job : Jobs → String → Option Job
  | [], _ => none
  | (k, j) :: rest, job_id => if k = job_id then some j else get_job rest job_id

/-- The `if job_id in self.jobs: mutate self.jobs[job_id]` pattern shared by
every mutating `JobManager` operation: apply `f` to the entry with the given
id (if any) and leave every other entry unchanged. -/
def setEntry : Jobs → String → (Job → Job) → Jobs
  | [], _, _ => []
  | (k, j) :: rest, job_id, f =>
    if k = job_id then (k, f j) :: setEntry rest job_id f
    else (k, j) :: setEntry rest job_id f

/-- Translation of `JobManager.create_job`: insert a fresh Pending record
under a new id (the uuid is passed in explicitly). -/
def create_job (jobs : Jobs) (new_id : String) (now : Nat) : Jobs :=
  jobs ++ [(new_id, { id := new_id, status := .pending, created_at := now, updated_at := now })]

/-- Translation of `JobManager.update_stage`: set `stage` and `updated_at` of
the record if the id is known; otherwise do nothing. -/
def update_stage (now : Nat) (jobs : Jobs) (job_id stage : String) : Jobs :=
  setEntry jobs job_id fun j => { j with stage := stage, updated_at := now }

/-- Translation of `JobManager.complete_job`: set `status := DONE` and store
the result if the id is known; otherwise do nothing. -/
def complete_job (now : Nat) (jobs : Jobs) (job_id : String) (result : VizResult) : Jobs :=
  setEntry jobs job_id fun j => { j with status := .done, result := some result, updated_at := now }

/-- Translation of `JobManager.fail_job`: set `status := ERROR` and store the
error message if the id is known; otherwise do nothing. -/
def fail_job (now : Nat) (jobs : Jobs) (job_id error : String) : Jobs :=
  setEntry jobs job_id fun j => { j with status := .error, error := some error, updated_at := now }

/-- Translation of `JobManager.execute_job` with the awaited task's outcome
passed in: return unchanged if the id is unknown; else mark Running, then
`complete_job` on task success or `fail_job` on exception. -/
def execute_job (now : Nat) (jobs : Jobs) (job_id : String)
    (taskOutcome : Except String VizResult) : Jobs :=
  if (get_job jobs job_id).isSome then
    let jobs1 := setEntry jobs job_id fun j => { j with status := .running, updated_at := now }
    match taskOutcome with
    | .ok r => complete_job now jobs1 job_id r
    | .error e => fail_job now jobs1 job_id e
  else
    jobs

/-- Translation of `select_viz_modality` from `generator.py`: the stubbed,
deterministic modality decision keyed on the normalized topic. -/
def select_viz_modality (topic : String) : VizType :=
  let topic_lower := pyReplace1 (pyLower topic) ' ' '_'
  if topic_lower ∈ ["derivatives", "chain_rule", "product_rule", "power_rule", "quotient_rule"] then
    .three_spec
  else if topic_lower ∈ ["integrals", "definite_integrals", "integration_by_parts", "substitution", "riemann_sums"] then
    .manim_mp4
  else if topic_lower ∈ ["limits", "continuity", "implicit_differentiation", "related_rates", "sequences", "lhopitals_rule", "fundamental_theorem"] then
    .image
  else if topic_lower ∈ ["neural_networks", "perceptron", "convolutional_networks", "relu", "sigmoid", "activation_functions"] then
    .three_spec
  else if topic_lower ∈ ["gradient_descent", "backpropagation"] then
    .manim_mp4
  else if topic_lower ∈ ["loss_functions", "regularization"] then
    .image
  else if topic_lower ∈ ["vectors", "dot_product", "cross_product", "eigenvalues", "eigenvectors"] then
    .three_spec
  else if topic_lower ∈ ["linear_transformations", "matrices", "matrix_multiplication"] then
    .manim_mp4
  else if topic_lower ∈ ["determinants", "inverse_matrix", "vector_spaces"] then
    .image
  else if topic_lower ∈ ["kinematics", "projectile_motion", "waves", "oscillations"] then
    .three_spec
  else if topic_lower ∈ ["forces", "momentum", "energy", "mechanics"] then
    .manim_mp4
  else if topic_lower ∈ ["newtons_laws", "work", "rotation"] then
    .image
  else if topic_lower ∈ ["normal_distribution", "distributions", "regression", "correlation"] then
    .three_spec
  else if topic_lower ∈ ["bayes_theorem", "probability"] then
    .manim_mp4
  else if topic_lower ∈ ["hypothesis_testing", "confidence_intervals", "expected_value", "variance"] then
    .image
  else if topic_lower ∈ ["graphs", "trees"] then
    .three_spec
  else if topic_lower ∈ ["paths", "cycles", "connectivity", "recursion"] then
    .manim_mp4
  else if topic_lower ∈ ["sets", "logic", "combinatorics", "permutations", "combinations", "proofs"] then
    .image
  else
    .three_spec

/-- The external world one visualization job runs against: the generative
credential, the render attempt's environment, and the files present in the
static videos directory (the pre-generated video cache). -/
structure Env where
  apiKey : Option String
  render : RenderEnv
  videosDirFiles : List String

/-- Translation of `generate_visualization` from `generator.py`. Selects the
modality, posts stage updates to the job manager, and runs the corresponding
generator; any generator exception is re-raised unchanged (the `except` clause
only logs). Returns the updated job map together with the result or the
propagated exception. -/
def generate_visualization (env : Env) (topic lesson_title summary job_id : String)
    (jobs : Jobs) (now : Nat) : Jobs × Except String VizResult :=
  let viz_type := select_viz_modality topic
  let jobs := update_stage now jobs job_id ("Generating " ++ viz_type.toStr ++ " visualization...")
  match viz_type with
  | .three_spec =>
    let jobs := update_stage now jobs job_id "Building interactive 3D specification..."
    (jobs, .ok { type := .three_spec, spec := some (get_three_spec_for_topic topic), url := none })
  | .manim_mp4 =>
    let jobs := update_stage now jobs job_id "Generating animation code..."
    match (render_manim_video env.render topic lesson_title job_id).result with
    | .ok url => (jobs, .ok { type := .manim_mp4, spec := none, url := some url })
    | .error e => (jobs, .error e)
  | .image =>
    let jobs := update_stage now jobs job_id "Creating educational diagram..."
    match generate_gemini_image env.apiKey topic lesson_title summary job_id with
    | .ok r => (jobs, .ok { type := .image, spec := none, url := some r.url })
    | .error e => (jobs, .error e)

/-- Translation of `generate_visualization_task` from `generator.py`: wrap any
exception in `Exception(f"Visualization generation failed: {e}")`. -/
def generate_visualization_task (env : Env) (topic lesson_title summary viz_job_id : String)
    (jobs : Jobs) (now : Nat) : Jobs × Except String VizResult :=
  match generate_visualization env topic lesson_title summary viz_job_id jobs now with
  | (jobs, .ok r) => (jobs, .ok r)
  | (jobs, .error e) => (jobs, .error ("Visualization generation failed: " ++ e))

/-- `JobManager.execute_job` running `generate_visualization_task` as its unit
of work — the full background flow a created visualization job goes through. -/
def run_viz_job (env : Env) (jobs : Jobs) (job_id topic lesson_title summary : String)
    (now : Nat) : Jobs :=
  if (get_job jobs job_id).isSome then
    let jobs1 := setEntry jobs job_id fun j => { j with status := .running, updated_at := now }
    match generate_visualization_task env topic lesson_title summary job_id jobs1 now with
    | (jobs2, .ok r) => complete_job now jobs2 job_id r
    | (jobs2, .error e) => fail_job now jobs2 job_id e
  else
    jobs

/-- An HTTP error raised by the route layer (`fastapi.HTTPException`). -/
structure HTTPError where
  status_code : Nat
  detail : String
deriving DecidableEq, Repr

/-- The `VizJobResponse` model of `routes/viz.py`. -/
structure VizJobResponse where
  status : String
  stage : Option String := none
  viz : Option VizResult := none
  message : Option String := none

/-- Translation of the `get_viz_job` endpoint from `routes/viz.py`: 404 when
the id is unknown; otherwise a response keyed on the record's status. (The
source's final `else → 500` branch is unreachable: `JobStatus` is a closed
enum.) -/
def get_viz_job (jobs : Jobs) (job_id : String) : Except HTTPError VizJobResponse :=
  match get_job jobs job_id with
  | none => .error { status_code := 404, detail := "Job " ++ job_id ++ " not found" }
  | some job =>
    match job.status with
    | .pending => .ok { status := "pending", stage := some "Initializing..." }
    | .running => .ok { status := "running",
                        stage := some (if job.stage = "" then "Processing..." else job.stage) }
    | .done => .ok { status := "done", viz := job.result }
    | .error => .ok { status := "error",
                      message := some (job.error.getD "Unknown error occurred") }

/-- The topics `generate_svg_diagram` recognizes (the union of its branch
lists, in dispatch order); every other normalized topic takes the generic
default branch. -/
def knownSvgTopics : List String :=
  ["limits", "continuity", "implicit_differentiation", "related_rates",
   "fundamental_theorem", "sequences", "lhopitals_rule", "loss_functions",
   "regularization", "determinants", "inverse_matrix", "vector_spaces",
   "newtons_laws", "work", "rotation", "hypothesis_testing",
   "confidence_intervals", "expected_value", "variance", "sets", "logic",
   "combinatorics", "permutations", "combinations", "proofs"]

/-- A render environment whose subprocess exceeds the wall-clock timeout. -/
def sampleRenderTimeout : RenderEnv :=
  { subprocess := .timedOut, outputQualities := [] }

/-- A job environment where the manim subprocess times out. -/
def sampleEnvTimeout : Env :=
  { apiKey := some "test-key", render := sampleRenderTimeout, videosDirFiles := [] }

/-- A job environment with no `GOOGLE_API_KEY` configured (the renderer itself
would succeed). -/
def sampleEnvNoKey : Env :=
  { apiKey := none,
    render := { subprocess := .completed 0 "" "", outputQualities := ["480p15"] },
    videosDirFiles := [] }

/-- A job environment where rendering succeeds and a pre-generated calculus
video exists in the static videos directory. -/
def sampleEnvRenderOk : Env :=
  { apiKey := some "test-key",
    render := { subprocess := .completed 0 "" "", outputQualities := ["480p15"] },
    videosDirFiles := ["calculus_animation.mp4"] }

/-- A freshly created Pending job record. -/
def samplePendingJob : Job :=
  { id := "job-1", status := .pending, created_at := 0, updated_at := 0 }

/-- A terminal Done job record holding a structured-spec result. -/
def sampleDoneJob : Job :=
  { id := "job-1", status := .done, stage := "old stage",
    result := some { type := .three_spec,
                     spec := some (get_three_spec_for_topic "derivatives"),
                     url := none },
    error := none, created_at := 0, updated_at := 0 }

/-- A sample artifact payload. -/
def sampleVizResult : VizResult :=
  { type := .image, spec := none, url := some "/static/images/sample.svg" }


theorem get_job_setEntry_self (jobs : Jobs) (job_id : String) (f : Job → Job) :
    get_job (setEntry jobs job_id f) job_id = (get_job jobs job_id).map f := by
  induction jobs with
  | nil => rfl
  | cons p rest ih =>
    rcases p with ⟨k, j⟩
    by_cases hk : k = job_id
    · simp [setEntry, get_job, hk]
    · simpa [setEntry, get_job, hk] using ih

theorem get_job_setEntry_ne (jobs : Jobs) (job_id id' : String) (f : Job → Job)
    (h : id' ≠ job_id) :
    get_job (setEntry jobs job_id f) id' = get_job jobs id' := by
  induction jobs with
  | nil => rfl
  | cons p rest ih =>
    rcases p with ⟨k, j⟩
    by_cases hk : k = job_id
    · subst hk
      simpa [setEntry, get_job, Ne.symm h] using ih
    · by_cases hk' : k = id'
      · simp [setEntry, get_job, hk, hk', h]
      · simpa [setEntry, get_job, hk, hk'] using ih

theorem setEntry_absent (jobs : Jobs) (job_id : String) (f : Job → Job)
    (h : get_job jobs job_id = none) :
    setEntry jobs job_id f = jobs := by
  induction jobs with
  | nil => rfl
  | cons p rest ih =>
    rcases p with ⟨k, j⟩
    by_cases hk : k = job_id
    · simp [get_job, hk] at h
    · simp [get_job, hk] at h
      simp [setEntry, hk, ih h]

/-- Claim C3 (corrected): `complete_job` and `fail_job` update the record
unconditionally whenever the id is known — terminal jobs are not protected
(so a Done job can be flipped to Error and vice versa); only unknown ids are
ignored. Within one `execute_job` run the job does end Done on task success
and Error on task failure. -/
theorem claim_C3 (now : Nat) (jobs : Jobs) (job_id : String) (r : VizResult)
    (e : String) (j : Job) :
    (get_job jobs job_id = some j →
      get_job (complete_job now jobs job_id r) job_id
        = some { j with status := .done, result := some r, updated_at := now }
      ∧ get_job (fail_job now jobs job_id e) job_id
        = some { j with status := .error, error := some e, updated_at := now })
    ∧ (get_job jobs job_id = none →
      complete_job now jobs job_id r = jobs ∧ fail_job now jobs job_id e = jobs)
    ∧ (get_job jobs job_id = some j →
      (get_job (execute_job now jobs job_id (.ok r)) job_id).map Job.status
        = some JobStatus.done
      ∧ (get_job (execute_job now jobs job_id (.error e)) job_id).map Job.status
        = some JobStatus.error) := by
  refine ⟨fun h => ?_, fun h => ?_, fun h => ?_⟩
  · constructor <;> simp [complete_job, fail_job, get_job_setEntry_self, h]
  · exact ⟨setEntry_absent _ _ _ h, setEntry_absent _ _ _ h⟩
  · constructor <;>
      simp [execute_job, complete_job, fail_job, get_job_setEntry_self, h]

/-- Claim C3 counterexample: a Done job is not immune — `fail_job` flips its
status to Error, falsifying "once terminal ... any later complete_job or
fail_job call on that job is ignored and leaves the record unchanged". -/
theorem claim_C3_counterexample :
    sampleDoneJob.status = JobStatus.done
    ∧ (get_job (fail_job 5 [("job-1", sampleDoneJob)] "job-1" "boom") "job-1").map Job.status
        = some JobStatus.error := by
  constructor
  · rfl
  · rfl

/-- Claim C3 witness: the amended semantics evaluated on a concrete pending
job. -/
theorem claim_C3_witness :
    (get_job (complete_job 5 [("job-1", samplePendingJob)] "job-1" sampleVizResult) "job-1"
      = some { samplePendingJob with status := .done, result := some sampleVizResult, updated_at := 5 }
    ∧ get_job (fail_job 5 [("job-1", samplePendingJob)] "job-1" "err") "job-1"
      = some { samplePendingJob with status := .error, error := some "err", updated_at := 5 }) :=
  (claim_C3 5 [("job-1", samplePendingJob)] "job-1" sampleVizResult "err" samplePendingJob).1 rfl

/-- Claim C8 (corrected): `update_stage` is a no-op only for unknown ids (and
never touches other records), but for a known job it updates `stage` and
`updated_at` regardless of terminal status. -/
theorem claim_C8 (now : Nat) (jobs : Jobs) (job_id stage id' : String) (j : Job) :
    (get_job jobs job_id = some j →
      get_job (update_stage now jobs job_id stage) job_id
        = some { j with stage := stage, updated_at := now })
    ∧ (get_job jobs job_id = none → update_stage now jobs job_id stage = jobs)
    ∧ (id' ≠ job_id →
      get_job (update_stage now jobs job_id stage) id' = get_job jobs id') := by
  refine ⟨fun h => ?_, fun h => ?_, fun h => ?_⟩
  · simp [update_stage, get_job_setEntry_self, h]
  · exact setEntry_absent _ _ _ h
  · exact get_job_setEntry_ne _ _ _ _ h

/-- Claim C8 counterexample: `update_stage` on an already-Done job changes its
`stage` field, falsifying "leaves the job record unchanged". -/
theorem claim_C8_counterexample :
    sampleDoneJob.status = JobStatus.done
    ∧ (get_job (update_stage 5 [("job-1", sampleDoneJob)] "job-1" "new stage") "job-1").map Job.stage
        = some "new stage"
    ∧ ¬ sampleDoneJob.stage = "new stage" := by
  refine ⟨rfl, rfl, by decide⟩

/-- Claim C8 witness: the amended semantics evaluated on concrete inputs. -/
theorem claim_C8_witness :
    (get_job (update_stage 5 [("job-1", sampleDoneJob)] "job-1" "s2") "job-1"
      = some { sampleDoneJob with stage := "s2", updated_at := 5 })
    ∧ get_job (update_stage 5 [("job-1", sampleDoneJob)] "job-1" "s2") "other"
      = get_job [("job-1", sampleDoneJob)] "other" :=
  ⟨(claim_C8 5 [("job-1", sampleDoneJob)] "job-1" "s2" "other" sampleDoneJob).1 rfl,
   (claim_C8 5 [("job-1", sampleDoneJob)] "job-1" "s2" "other" sampleDoneJob).2.2 (by decide)⟩

/-- Claim C7 (confirmed): the poll endpoint raises 404 exactly when the job id
is unknown; for a known job it returns the record's status string, includes
`viz` only when the status is done (and then it is the job's result), and
includes `message` only when the status is error (and then it is the job's
error, defaulted). -/
theorem claim_C7 (jobs : Jobs) (job_id : String) :
    (get_job jobs job_id = none →
      get_viz_job jobs job_id
        = .error { status_code := 404, detail := "Job " ++ job_id ++ " not found" })
    ∧ (∀ e, get_viz_job jobs job_id = .error e → get_job jobs job_id = none)
    ∧ (∀ j, get_job jobs job_id = some j →
      ∃ resp, get_viz_job jobs job_id = .ok resp
        ∧ resp.status = j.status.toStr
        ∧ (resp.viz.isSome = true → j.status = .done)
        ∧ (j.status = .done → resp.viz = j.result)
        ∧ (resp.message.isSome = true → j.status = .error)
        ∧ (j.status = .error →
            resp.message = some (j.error.getD "Unknown error occurred"))) := by
  refine ⟨fun h => ?_, fun e he => ?_, fun j hj => ?_⟩
  · simp [get_viz_job, h]
  · cases hg : get_job jobs job_id with
    | none => rfl
    | some j =>
      exfalso
      cases hs : j.status <;> simp [get_viz_job, hg, hs] at he
  · cases hs : j.status with
    | pending =>
      exact ⟨{ status := "pending", stage := some "Initializing..." },
        by simp [get_viz_job, hj, hs], rfl, by simp, by simp [hs], by simp, by simp [hs]⟩
    | running =>
      exact ⟨{ status := "running",
               stage := some (if j.stage = "" then "Processing..." else j.stage) },
        by simp [get_viz_job, hj, hs], rfl, by simp, by simp [hs], by simp, by simp [hs]⟩
    | done =>
      exact ⟨{ status := "done", viz := j.result },
        by simp [get_viz_job, hj, hs], rfl, fun _ => rfl, fun _ => rfl, by simp, by simp [hs]⟩
    | error =>
      exact ⟨{ status := "error", message := some (j.error.getD "Unknown error occurred") },
        by simp [get_viz_job, hj, hs], rfl, by simp [hs], by simp [hs], fun _ => rfl, fun _ => rfl⟩

/-- Claim C7 witness: the endpoint evaluated on a one-job map: known id gives
a done response carrying the result; the 404 branch at an unknown id. -/
theorem claim_C7_witness :
    (∃ resp, get_viz_job [("job-1", sampleDoneJob)] "job-1" = .ok resp
      ∧ resp.status = sampleDoneJob.status.toStr
      ∧ (resp.viz.isSome = true → sampleDoneJob.status = .done)
      ∧ (sampleDoneJob.status = .done → resp.viz = sampleDoneJob.result)
      ∧ (resp.message.isSome = true → sampleDoneJob.status = .error)
      ∧ (sampleDoneJob.status = .error →
          resp.message = some (sampleDoneJob.error.getD "Unknown error occurred")))
    ∧ get_viz_job [("job-1", sampleDoneJob)] "missing"
        = .error { status_code := 404, detail := "Job " ++ "missing" ++ " not found" } :=
  ⟨(claim_C7 [("job-1", sampleDoneJob)] "job-1").2.2 sampleDoneJob rfl,
   (claim_C7 [("job-1", sampleDoneJob)] "missing").1 rfl⟩

/-- Claim C9 (confirmed): for every subprocess outcome (exit 0, nonzero exit,
timeout, missing output file) neither renderer leaves its temporary workspace
behind: `render_manim_video` removes both the temp script and the temp media
directory, and `generate_manim_video` removes its temp directory. -/
theorem claim_C9 (renv : RenderEnv) (genv : GenVideoEnv)
    (topic lesson_title title summary job_id : String) :
    ((render_manim_video renv topic lesson_title job_id).tempScriptLeft = false
     ∧ (render_manim_video renv topic lesson_title job_id).tempDirLeft = false)
    ∧ (generate_manim_video genv topic title summary job_id).tempDirLeft = false := by
  refine ⟨⟨?_, ?_⟩, ?_⟩
  · rcases renv with ⟨sp, oq⟩
    cases sp <;> simp only [render_manim_video] <;> split_ifs <;> rfl
  · rcases renv with ⟨sp, oq⟩
    cases sp <;> simp only [render_manim_video] <;> split_ifs <;> rfl
  · rcases genv with ⟨c, sp, oq⟩
    cases sp <;> simp only [generate_manim_video] <;> split_ifs <;> rfl

/-- Every `SceneType` member's string value is in `sceneTypeValues`. -/
theorem sceneTypeValues_contains (st : SceneType) :
    st.value ∈ sceneTypeValues := by
  cases st <;> decide

/-- Every produced spec dict passes validation. -/
theorem validate_toDict (sp : ThreeSpec) :
    validate_three_spec sp.toDict = true := by
  rcases sp with ⟨st, p⟩
  simp [validate_three_spec, ThreeSpec.toDict, sceneTypeValues_contains st]

/-- Claim C6 (confirmed): every spec produced by `get_three_spec_for_topic`
carries a `SceneType` tag and a params payload and passes
`validate_three_spec`; and a candidate dict validates exactly when its
`"sceneType"` value is a recognized scene-type string and a `"params"` key is
present. -/
theorem claim_C6 :
    (∀ topic, validate_three_spec (ThreeSpec.toDict (get_three_spec_for_topic topic)) = true)
    ∧ (∀ d : SpecDict, validate_three_spec d = true ↔
        ((∃ s, d.sceneType? = some (JValue.str s) ∧ s ∈ sceneTypeValues)
         ∧ d.params?.isSome = true)) := by
  constructor
  · intro topic
    exact validate_toDict _
  · intro d
    rcases d with ⟨st?, p?⟩
    cases st? with
    | none => simp [validate_three_spec]
    | some v =>
      cases v <;> simp [validate_three_spec]

/-- Every branch of the SVG dispatch returns an XML-headed SVG document. -/
theorem svg_go_header (topic_lower title summary : String) :
    ∃ rest, generate_svg_diagram_go topic_lower title summary = svgXmlHeader ++ rest := by
  unfold generate_svg_diagram_go
  by_cases h1 : topic_lower ∈ ["limits", "continuity"]
  · rw [if_pos h1]; exact ⟨_, rfl⟩
  rw [if_neg h1]
  by_cases h2 : topic_lower ∈ ["implicit_differentiation"]
  · rw [if_pos h2]; exact ⟨_, rfl⟩
  rw [if_neg h2]
  by_cases h3 : topic_lower ∈ ["related_rates"]
  · rw [if_pos h3]; exact ⟨_, rfl⟩
  rw [if_neg h3]
  by_cases h4 : topic_lower ∈ ["fundamental_theorem", "sequences", "lhopitals_rule"]
  · rw [if_pos h4]; exact ⟨_, rfl⟩
  rw [if_neg h4]
  by_cases h5 : topic_lower ∈ ["loss_functions"]
  · rw [if_pos h5]; exact ⟨_, rfl⟩
  rw [if_neg h5]
  by_cases h6 : topic_lower ∈ ["regularization"]
  · rw [if_pos h6]; exact ⟨_, rfl⟩
  rw [if_neg h6]
  by_cases h7 : topic_lower ∈ ["determinants"]
  · rw [if_pos h7]; exact ⟨_, rfl⟩
  rw [if_neg h7]
  by_cases h8 : topic_lower ∈ ["inverse_matrix"]
  · rw [if_pos h8]; exact ⟨_, rfl⟩
  rw [if_neg h8]
  by_cases h9 : topic_lower ∈ ["vector_spaces"]
  · rw [if_pos h9]; exact ⟨_, rfl⟩
  rw [if_neg h9]
  by_cases h10 : topic_lower ∈ ["newtons_laws"]
  · rw [if_pos h10]; exact ⟨_, rfl⟩
  rw [if_neg h10]
  by_cases h11 : topic_lower ∈ ["work"]
  · rw [if_pos h11]; exact ⟨_, rfl⟩
  rw [if_neg h11]
  by_cases h12 : topic_lower ∈ ["rotation"]
  · rw [if_pos h12]; exact ⟨_, rfl⟩
  rw [if_neg h12]
  by_cases h13 : topic_lower ∈ ["hypothesis_testing"]
  · rw [if_pos h13]; exact ⟨_, rfl⟩
  rw [if_neg h13]
  by_cases h14 : topic_lower ∈ ["confidence_intervals"]
  · rw [if_pos h14]; exact ⟨_, rfl⟩
  rw [if_neg h14]
  by_cases h15 : topic_lower ∈ ["expected_value", "variance"]
  · rw [if_pos h15]; exact ⟨_, rfl⟩
  rw [if_neg h15]
  by_cases h16 : topic_lower ∈ ["sets", "logic"]
  · rw [if_pos h16]; exact ⟨_, rfl⟩
  rw [if_neg h16]
  by_cases h17 : topic_lower ∈ ["combinatorics", "permutations", "combinations"]
  · rw [if_pos h17]; exact ⟨_, rfl⟩
  rw [if_neg h17]
  by_cases h18 : topic_lower ∈ ["proofs"]
  · rw [if_pos h18]; exact ⟨_, rfl⟩
  rw [if_neg h18]
  exact ⟨_, rfl⟩

set_option maxHeartbeats 3200000 in
/-- A normalized topic outside every known family takes the generic branch. -/
theorem svg_go_default (topic_lower title summary : String)
    (h : topic_lower ∉ knownSvgTopics) :
    generate_svg_diagram_go topic_lower title summary = generate_generic_svg title summary := by
  have g1 : topic_lower ∉ ["limits", "continuity"] :=
    fun hc => h (by simp only [knownSvgTopics, List.mem_cons, List.not_mem_nil, or_false] at hc ⊢; tauto)
  have g2 : topic_lower ∉ ["implicit_differentiation"] :=
    fun hc => h (by simp only [knownSvgTopics, List.mem_cons, List.not_mem_nil, or_false] at hc ⊢; tauto)
  have g3 : topic_lower ∉ ["related_rates"] :=
    fun hc => h (by simp only [knownSvgTopics, List.mem_cons, List.not_mem_nil, or_false] at hc ⊢; tauto)
  have g4 : topic_lower ∉ ["fundamental_theorem", "sequences", "lhopitals_rule"] :=
    fun hc => h (by simp only [knownSvgTopics, List.mem_cons, List.not_mem_nil, or_false] at hc ⊢; tauto)
  have g5 : topic_lower ∉ ["loss_functions"] :=
    fun hc => h (by simp only [knownSvgTopics, List.mem_cons, List.not_mem_nil, or_false] at hc ⊢; tauto)
  have g6 : topic_lower ∉ ["regularization"] :=
    fun hc => h (by simp only [knownSvgTopics, List.mem_cons, List.not_mem_nil, or_false] at hc ⊢; tauto)
  have g7 : topic_lower ∉ ["determinants"] :=
    fun hc => h (by simp only [knownSvgTopics, List.mem_cons, List.not_mem_nil, or_false] at hc ⊢; tauto)
  have g8 : topic_lower ∉ ["inverse_matrix"] :=
    fun hc => h (by simp only [knownSvgTopics, List.mem_cons, List.not_mem_nil, or_false] at hc ⊢; tauto)
  have g9 : topic_lower ∉ ["vector_spaces"] :=
    fun hc => h (by simp only [knownSvgTopics, List.mem_cons, List.not_mem_nil, or_false] at hc ⊢; tauto)
  have g10 : topic_lower ∉ ["newtons_laws"] :=
    fun hc => h (by simp only [knownSvgTopics, List.mem_cons, List.not_mem_nil, or_false] at hc ⊢; tauto)
  have g11 : topic_lower ∉ ["work"] :=
    fun hc => h (by simp only [knownSvgTopics, List.mem_cons, List.not_mem_nil, or_false] at hc ⊢; tauto)
  have g12 : topic_lower ∉ ["rotation"] :=
    fun hc => h (by simp only [knownSvgTopics, List.mem_cons, List.not_mem_nil, or_false] at hc ⊢; tauto)
  have g13 : topic_lower ∉ ["hypothesis_testing"] :=
    fun hc => h (by simp only [knownSvgTopics, List.mem_cons, List.not_mem_nil, or_false] at hc ⊢; tauto)
  have g14 : topic_lower ∉ ["confidence_intervals"] :=
    fun hc => h (by simp only [knownSvgTopics, List.mem_cons, List.not_mem_nil, or_false] at hc ⊢; tauto)
  have g15 : topic_lower ∉ ["expected_value", "variance"] :=
    fun hc => h (by simp only [knownSvgTopics, List.mem_cons, List.not_mem_nil, or_false] at hc ⊢; tauto)
  have g16 : topic_lower ∉ ["sets", "logic"] :=
    fun hc => h (by simp only [knownSvgTopics, List.mem_cons, List.not_mem_nil, or_false] at hc ⊢; tauto)
  have g17 : topic_lower ∉ ["combinatorics", "permutations", "combinations"] :=
    fun hc => h (by simp only [knownSvgTopics, List.mem_cons, List.not_mem_nil, or_false] at hc ⊢; tauto)
  have g18 : topic_lower ∉ ["proofs"] :=
    fun hc => h (by simp only [knownSvgTopics, List.mem_cons, List.not_mem_nil, or_false] at hc ⊢; tauto)
  unfold generate_svg_diagram_go
  rw [if_neg g1, if_neg g2, if_neg g3, if_neg g4, if_neg g5, if_neg g6, if_neg g7,
      if_neg g8, if_neg g9, if_neg g10, if_neg g11, if_neg g12, if_neg g13, if_neg g14,
      if_neg g15, if_neg g16, if_neg g17, if_neg g18]

/-- Claim C5 (confirmed): the offline fallback renderer is total and
deterministic — for every topic, title and summary it returns an SVG markup
string (an XML-headed document; being a pure total function it cannot fail),
choosing a hand-authored diagram by matching the normalized topic and falling
back to the generic diagram for topics matching no known concept family. -/
theorem claim_C5 (topic title summary : String) :
    (∃ rest, generate_svg_diagram topic title summary = svgXmlHeader ++ rest)
    ∧ (pyReplace1 (pyLower topic) ' ' '_' ∉ knownSvgTopics →
        generate_svg_diagram topic title summary = generate_generic_svg title summary) :=
  ⟨svg_go_header _ title summary, fun h => svg_go_default _ title summary h⟩

/-- Claim C5 witness: a topic outside every known concept family takes the
generic default branch. -/
theorem claim_C5_witness :
    generate_svg_diagram "quantum mechanics" "Quantum" "Waves and particles"
      = generate_generic_svg "Quantum" "Waves and particles" :=
  (claim_C5 "quantum mechanics" "Quantum" "Waves and particles").2 (by decide)

/-- Claim C10 (confirmed): with a configured `GOOGLE_API_KEY` the
static-diagram path is deterministic and makes no external generative call:
the output does not depend on the key, and it is exactly the offline SVG of
the four arguments, written under a name derived from the job id and topic. -/
theorem claim_C10 (k₁ k₂ topic lesson_title summary job_id : String)
    (h₁ : k₁ ≠ "") (h₂ : k₂ ≠ "") :
    generate_gemini_image (some k₁) topic lesson_title summary job_id
      = generate_gemini_image (some k₂) topic lesson_title summary job_id
    ∧ generate_gemini_image (some k₁) topic lesson_title summary job_id
      = .ok { fileName := job_id ++ "_" ++ (pyReplace1 topic ' ' '_') ++ ".svg",
              content := generate_svg_diagram topic lesson_title summary,
              url := "/static/images/" ++ (job_id ++ "_" ++ (pyReplace1 topic ' ' '_') ++ ".svg") } := by
  constructor <;> simp [generate_gemini_image, h₁, h₂]

/-- Claim C10 witness: two runs with different configured keys agree on a
concrete input. -/
theorem claim_C10_witness :
    generate_gemini_image (some "key-a") "limits" "Limits" "Sum" "job-1"
      = generate_gemini_image (some "key-b") "limits" "Limits" "Sum" "job-1" :=
  (claim_C10 "key-a" "key-b" "limits" "Limits" "Sum" "job-1" (by decide) (by decide)).1

/-- Claim C4 (corrected): `generate_visualization` never consults the
pre-generated artifact cache — its entire behavior is independent of which
files exist in the static videos directory (and its result carries no
`cached` flag at all; `find_cached_video` is not invoked). -/
theorem claim_C4 (apiKey : Option String) (render : RenderEnv) (files₁ files₂ : List String)
    (topic lesson_title summary job_id : String) (jobs : Jobs) (now : Nat) :
    generate_visualization ⟨apiKey, render, files₁⟩ topic lesson_title summary job_id jobs now
      = generate_visualization ⟨apiKey, render, files₂⟩ topic lesson_title summary job_id jobs now := rfl

/-- Claim C4 counterexample: a pre-generated video exists for the topic's
category (`find_cached_video` would find it), yet `generate_visualization`
returns a freshly rendered URL, not the cached one. -/
theorem claim_C4_counterexample :
    find_cached_video ["calculus_animation.mp4"] "integrals"
      = some "/static/videos/calculus_animation.mp4"
    ∧ ((generate_visualization sampleEnvRenderOk "integrals" "Integrals" "Areas" "job-1" [] 1).2.toOption.bind
        (fun r => r.url)) = some "/static/videos/job-1_integrals.mp4"
    ∧ ((generate_visualization sampleEnvRenderOk "integrals" "Integrals" "Areas" "job-1" [] 1).2.toOption.bind
        (fun r => r.url)) ≠ find_cached_video ["calculus_animation.mp4"] "integrals" := by
  refine ⟨by decide, by decide, by decide⟩

/-- Any of the three subprocess failure modes (timeout, nonzero exit, exit 0
with no output file in any probed quality directory) makes
`render_manim_video` raise. -/
theorem render_manim_video_fails (env : RenderEnv) (topic lesson_title job_id : String)
    (hfail : env.subprocess = .timedOut
      ∨ (∃ rc out err, env.subprocess = .completed rc out err ∧ rc ≠ 0)
      ∨ (∃ out err, env.subprocess = .completed 0 out err
          ∧ renderQualityProbes.any (fun q => env.outputQualities.contains q) = false)) :
    ∃ e, (render_manim_video env topic lesson_title job_id).result = .error e := by
  rcases env with ⟨sp, oq⟩
  rcases hfail with h | ⟨rc, out, err, h, hrc⟩ | ⟨out, err, h, hq⟩
  · obtain rfl : sp = .timedOut := h
    exact ⟨_, rfl⟩
  · obtain rfl : sp = .completed rc out err := h
    exact ⟨"Manim rendering failed: " ++ (if err ≠ "" then err else out), by
      simp only [render_manim_video]
      rw [if_pos hrc]⟩
  · obtain rfl : sp = .completed 0 out err := h
    exact ⟨"Rendered video not found at expected path: "
        ++ (generate_manim_code_for_topic topic lesson_title).sceneClass ++ ".mp4", by
      simp only [render_manim_video]
      rw [if_neg (by simp), if_neg (ne_true_of_eq_false hq)]⟩

/-- Claim C1 (corrected): when the external rendering subprocess fails in any
of the three ways (nonzero exit, timeout, or no output file left behind),
`generate_visualization` does not degrade to the SVG-class pipeline: the
exception propagates and the job ends Error (not Done) with the wrapped
failure message, its stored result unchanged — no diagram-class artifact. -/
theorem claim_C1 (env : Env) (jobs : Jobs) (job_id topic lesson_title summary : String)
    (now : Nat)
    (hsel : select_viz_modality topic = VizType.manim_mp4)
    (hfail : env.render.subprocess = .timedOut
      ∨ (∃ rc out err, env.render.subprocess = .completed rc out err ∧ rc ≠ 0)
      ∨ (∃ out err, env.render.subprocess = .completed 0 out err
          ∧ renderQualityProbes.any (fun q => env.render.outputQualities.contains q) = false))
    (hjob : (get_job jobs job_id).isSome = true) :
    (get_job (run_viz_job env jobs job_id topic lesson_title summary now) job_id).map Job.status
      = some JobStatus.error
    ∧ (∃ e, (get_job (run_viz_job env jobs job_id topic lesson_title summary now) job_id).map Job.error
        = some (some ("Visualization generation failed: " ++ e)))
    ∧ (get_job (run_viz_job env jobs job_id topic lesson_title summary now) job_id).map Job.result
      = (get_job jobs job_id).map Job.result := by
  obtain ⟨j, hj⟩ := Option.isSome_iff_exists.mp hjob
  obtain ⟨e, hrender⟩ := render_manim_video_fails env.render topic lesson_title job_id hfail
  refine ⟨?_, ⟨e, ?_⟩, ?_⟩ <;>
    simp [run_viz_job, generate_visualization_task, generate_visualization,
          update_stage, complete_job, fail_job, get_job_setEntry_self, hsel, hrender, hj]

/-- Claim C1 counterexample: topic `integrals` selects the animated-video
modality; with the subprocess timing out the job ends Error (not Done), so no
diagram-class artifact is produced. -/
theorem claim_C1_counterexample :
    select_viz_modality "integrals" = VizType.manim_mp4
    ∧ (get_job (run_viz_job sampleEnvTimeout [("job-1", samplePendingJob)] "job-1"
          "integrals" "Integrals" "Areas" 1) "job-1").map Job.status
        = some JobStatus.error
    ∧ (get_job (run_viz_job sampleEnvTimeout [("job-1", samplePendingJob)] "job-1"
          "integrals" "Integrals" "Areas" 1) "job-1").map Job.result
        = some none := by
  refine ⟨by decide, by decide, rfl⟩

/-- Claim C1 witness: the amended behavior evaluated at the concrete
timed-out render. -/
theorem claim_C1_witness :
    (get_job (run_viz_job sampleEnvTimeout [("job-1", samplePendingJob)] "job-1"
        "integrals" "Integrals" "Areas" 1) "job-1").map Job.status
      = some JobStatus.error
    ∧ (∃ e, (get_job (run_viz_job sampleEnvTimeout [("job-1", samplePendingJob)] "job-1"
        "integrals" "Integrals" "Areas" 1) "job-1").map Job.error
      = some (some ("Visualization generation failed: " ++ e)))
    ∧ (get_job (run_viz_job sampleEnvTimeout [("job-1", samplePendingJob)] "job-1"
        "integrals" "Integrals" "Areas" 1) "job-1").map Job.result
      = (get_job [("job-1", samplePendingJob)] "job-1").map Job.result :=
  claim_C1 sampleEnvTimeout [("job-1", samplePendingJob)] "job-1" "integrals" "Integrals"
    "Areas" 1 (by decide) (Or.inl rfl) (by decide)

/-- Claim C2 (corrected): with no `GOOGLE_API_KEY` configured, a
static-diagram request does not fall through to the offline SVG fallback:
`generate_gemini_image` raises before generating anything, and the job ends
Error with the missing-credential message. -/
theorem claim_C2 (env : Env) (jobs : Jobs) (job_id topic lesson_title summary : String)
    (now : Nat)
    (hsel : select_viz_modality topic = VizType.image)
    (hkey : env.apiKey = none)
    (hjob : (get_job jobs job_id).isSome = true) :
    (get_job (run_viz_job env jobs job_id topic lesson_title summary now) job_id).map Job.status
      = some JobStatus.error
    ∧ (get_job (run_viz_job env jobs job_id topic lesson_title summary now) job_id).map Job.error
      = some (some ("Visualization generation failed: " ++ "GOOGLE_API_KEY not configured")) := by
  obtain ⟨j, hj⟩ := Option.isSome_iff_exists.mp hjob
  refine ⟨?_, ?_⟩ <;>
    simp [run_viz_job, generate_visualization_task, generate_visualization,
          generate_gemini_image, update_stage, complete_job, fail_job,
          get_job_setEntry_self, hsel, hkey, hj]

/-- Claim C2 counterexample: topic `limits` selects the static-diagram
modality; with the credential missing the job is marked Error — there is no
user-invisible fallback. -/
theorem claim_C2_counterexample :
    select_viz_modality "limits" = VizType.image
    ∧ (get_job (run_viz_job sampleEnvNoKey [("job-1", samplePendingJob)] "job-1"
          "limits" "Limits" "Approaching" 1) "job-1").map Job.status
        = some JobStatus.error
    ∧ (get_job (run_viz_job sampleEnvNoKey [("job-1", samplePendingJob)] "job-1"
          "limits" "Limits" "Approaching" 1) "job-1").map Job.error
        = some (some "Visualization generation failed: GOOGLE_API_KEY not configured") := by
  refine ⟨by decide, by decide, by decide⟩

/-- Claim C2 witness: the amended behavior evaluated at a concrete
missing-credential run. -/
theorem claim_C2_witness :
    (get_job (run_viz_job sampleEnvNoKey [("job-1", samplePendingJob)] "job-1"
        "limits" "Limits" "Approaching" 1) "job-1").map Job.status
      = some JobStatus.error
    ∧ (get_job (run_viz_job sampleEnvNoKey [("job-1", samplePendingJob)] "job-1"
        "limits" "Limits" "Approaching" 1) "job-1").map Job.error
      = some (some ("Visualization generation failed: " ++ "GOOGLE_API_KEY not configured")) :=
  claim_C2 sampleEnvNoKey [("job-1", samplePendingJob)] "job-1" "limits" "Limits"
    "Approaching" 1 (by decide) (by decide) (by decide)

end TeachingAid
